import Mathlib

/-
  Verification of the deterministic conversation-orchestration core of a
  rule-based customer-support chatbot (Python sources under src/agents).

  The embedding is shallow: each Python function used by the properties is
  translated into an executable Lean definition.  Python strings are Lean
  `String`s (a structure holding a `List Char`); the Python operators
  `needle in hay`, `str.lower`, `str.upper` and `str.strip` are embedded by
  the list-based helpers `pyIn`, `pyLower`, `pyUpper`, `pyStrip` below
  (ASCII case mapping, which is what all the keyword tables use).  Python
  `re` searches are compiled by hand into deterministic scanners; each one
  carries the original pattern in a comment.  `datetime` timestamps and
  `print` logging are side effects without observable influence on any
  property and are not modelled.
-/

set_option maxHeartbeats 2000000

/-! ### String helpers: Python `in`, `lower`, `upper`, `strip` -/

/-- Boolean test that `needle` occurs contiguously inside `hay`. -/
def hasInfix (needle : List Char) : List Char → Bool
  | [] => needle.isEmpty
  | c :: t => needle.isPrefixOf (c :: t) || hasInfix needle t

/-- Python `needle in hay` on strings (contiguous substring test). -/
def pyIn (needle hay : String) : Bool := hasInfix needle.data hay.data

/-- Python `s.lower()` (ASCII case mapping, as used by the keyword tables). -/
def pyLower (s : String) : String := ⟨s.data.map Char.toLower⟩

/-- Python `s.upper()` (ASCII case mapping). -/
def pyUpper (s : String) : String := ⟨s.data.map Char.toUpper⟩

/-- Python `s.strip()`: remove leading and trailing whitespace. -/
def pyStrip (s : String) : String :=
  ⟨((s.data.dropWhile Char.isWhitespace).reverse.dropWhile Char.isWhitespace).reverse⟩

/-- Numeric value of a decimal digit character. -/
def digitVal (c : Char) : Nat := c.toNat - 48

/-- Python `int()` on a string of decimal digits. -/
def natOfDigits (ds : List Char) : Nat := ds.foldl (fun n c => 10 * n + digitVal c) 0

/-! ### src/agents/state_machine.py -/

/-- `OrderStatus` enumeration (src/agents/state_machine.py lines 5-12). -/
inductive OrderStatus where
  | unknown
  | processing
  | shipped
  | delivered
  | cancelled
  | refunded
  | replacement_sent
deriving DecidableEq, Repr

/-- `OrderStatus.value`: the string payload of each enum member. -/
def OrderStatus.value : OrderStatus → String
  | .unknown => "unknown"
  | .processing => "processing"
  | .shipped => "shipped"
  | .delivered => "delivered"
  | .cancelled => "cancelled"
  | .refunded => "refunded"
  | .replacement_sent => "replacement_sent"

/-- Python `OrderStatus(s)` enum construction; `none` models the `ValueError`
    raised on an unknown payload string. -/
def orderStatusOfValue (s : String) : Option OrderStatus :=
  if s = "unknown" then some .unknown
  else if s = "processing" then some .processing
  else if s = "shipped" then some .shipped
  else if s = "delivered" then some .delivered
  else if s = "cancelled" then some .cancelled
  else if s = "refunded" then some .refunded
  else if s = "replacement_sent" then some .replacement_sent
  else none

/-- `StateMachine.ORDER_TRANSITIONS` (src/agents/state_machine.py lines 23-31):
    allowed outgoing transitions per status. -/
def ORDER_TRANSITIONS : OrderStatus → List OrderStatus
  | .unknown => [.processing, .cancelled]
  | .processing => [.shipped, .cancelled, .replacement_sent]
  | .shipped => [.delivered, .refunded, .replacement_sent]
  | .delivered => [.refunded, .replacement_sent]
  | .cancelled => []
  | .refunded => []
  | .replacement_sent => [.delivered]

/-- `StateMachine.can_transition_order` (src/agents/state_machine.py lines 43-45). -/
def can_transition_order (fromStatus toStatus : OrderStatus) : Bool :=
  (ORDER_TRANSITIONS fromStatus).contains toStatus

/-- `StateMachine.is_order_cancellable` (src/agents/state_machine.py lines 51-53). -/
def is_order_cancellable (status : OrderStatus) : Bool :=
  status = OrderStatus.unknown ∨ status = OrderStatus.processing

/-- `StateMachine.is_order_shipped` (src/agents/state_machine.py lines 55-57). -/
def is_order_shipped (status : OrderStatus) : Bool :=
  status = OrderStatus.shipped ∨ status = OrderStatus.delivered

/-- `OrderState` (src/agents/state_machine.py lines 69-76); the
    `created_at`/`last_updated` timestamps are not modelled. -/
structure OrderState where
  order_id : String
  status : OrderStatus
  delivery_eta : Option String
  tracking_number : Option String
deriving DecidableEq, Repr

/-- `OrderState.__init__(order_id)`: fresh state with status UNKNOWN. -/
def OrderState.init (order_id : String) : OrderState :=
  { order_id := order_id, status := .unknown, delivery_eta := none, tracking_number := none }

/-- `OrderState.transition_to` (src/agents/state_machine.py lines 86-91):
    returns the Python boolean result together with the post-state. -/
def OrderState.transition_to (st : OrderState) (new_status : OrderStatus) : Bool × OrderState :=
  if can_transition_order st.status new_status then
    (true, { st with status := new_status })
  else
    (false, st)

/-- `OrderState.update_tracking` (src/agents/state_machine.py lines 93-97):
    `delivery_eta` is only overwritten when one is supplied. -/
def OrderState.update_tracking (st : OrderState) (tracking_number : String)
    (delivery_eta : Option String) : OrderState :=
  { st with
    tracking_number := some tracking_number
    delivery_eta := match delivery_eta with
      | some eta => some eta
      | none => st.delivery_eta }

/-! ### src/agents/response_templates.py

Each entry of `RESPONSE_TEMPLATES` is a Python format string containing the
placeholder for the order id exactly once (always preceded by a literal hash
mark); `Template.format(order_id=...)` is embedded by splitting every template
into the pieces before and after the placeholder and concatenating the order id
between them. -/

/-- `ResponsePolicyLayer.RESPONSE_TEMPLATES` (src/agents/response_templates.py
    lines 16-56), keyed by (resolution type, order status). -/
def RESPONSE_TEMPLATES : List ((String × String) × (String × String)) :=
  [ (("refund", "processing"),
      ("I'm sorry for the inconvenience. I've successfully initiated a refund for order #",
       ". The amount will be credited within 3–5 business days.")),
    (("refund", "unknown"),
      ("I'm sorry for the inconvenience. I've successfully initiated a refund for order #",
       ". The amount will be credited within 3–5 business days.")),
    (("refund", "shipped"),
      ("I'm sorry for the inconvenience. Order #",
       " has already been shipped, so a refund isn't possible right now. I can help with a replacement or return after delivery.")),
    (("refund", "delivered"),
      ("I'm sorry for the inconvenience. Order #",
       " has already been delivered, so a refund isn't possible right now. I can help with a return process instead.")),
    (("refund", "cancelled"),
      ("Order #",
       " has already been cancelled and a refund is being processed. You'll receive the credit within 3–5 business days.")),
    (("refund", "refunded"),
      ("Order #",
       " has already been refunded. The credit should appear in your account within 3–5 business days.")),
    (("replacement", "processing"),
      ("Sorry about the mix-up. I've initiated a replacement for order #",
       ". The correct item will be delivered within 2–3 business days.")),
    (("replacement", "unknown"),
      ("Sorry about the mix-up. I've initiated a replacement for order #",
       ". The correct item will be delivered within 2–3 business days.")),
    (("replacement", "shipped"),
      ("Sorry about the mix-up. Since order #",
       " has already shipped, I've arranged for a replacement to be sent. You'll receive the correct item within 2–3 business days.")),
    (("replacement", "delivered"),
      ("Sorry about the mix-up. I've initiated a replacement for order #",
       ". The correct item will be delivered within 2–3 business days.")),
    (("replacement", "cancelled"),
      ("I apologize for the inconvenience. Order #",
       " has been cancelled, so I can't arrange a replacement. I can help process a new order instead.")),
    (("replacement", "refunded"),
      ("I apologize for the inconvenience. Order #",
       " has been refunded, so I can't arrange a replacement. I can help you place a new order instead.")),
    (("cancel", "processing"),
      ("Your order #",
       " has been successfully cancelled. A full refund will be processed within 3–5 business days.")),
    (("cancel", "unknown"),
      ("Your order #",
       " has been successfully cancelled. A full refund will be processed within 3–5 business days.")),
    (("cancel", "shipped"),
      ("I'm sorry, but order #",
       " has already been shipped and cannot be cancelled. I can help arrange a return after delivery.")),
    (("cancel", "delivered"),
      ("I'm sorry, but order #",
       " has already been delivered and cannot be cancelled. I can help with the return process instead.")),
    (("cancel", "cancelled"),
      ("Order #",
       " has already been cancelled. A full refund will be processed within 3–5 business days.")),
    (("cancel", "refunded"),
      ("Order #",
       " has already been cancelled and refunded. The credit should appear in your account within 3–5 business days.")),
    (("general", "processing"),
      ("I've successfully processed your request for order #",
       ". You'll receive confirmation and updates shortly.")),
    (("general", "unknown"),
      ("I've successfully processed your request for order #",
       ". You'll receive confirmation and updates shortly.")),
    (("general", "shipped"),
      ("I understand your concern about order #",
       ". Since it has already shipped, I've noted your request and our team will follow up with you shortly.")),
    (("general", "delivered"),
      ("I understand your concern about order #",
       ". Since it has been delivered, I've noted your request and our team will follow up with you shortly.")),
    (("general", "cancelled"),
      ("Order #",
       " has already been cancelled. If you need further assistance, please let me know.")),
    (("general", "refunded"),
      ("Order #",
       " has already been refunded. The credit should appear in your account within 3–5 business days.")),
    (("tracking", "processing"),
      ("Order #", " is currently being processed and will ship soon.")),
    (("tracking", "unknown"),
      ("Order #", " is currently being processed and will ship soon.")),
    (("tracking", "shipped"),
      ("Order #", " has been shipped and is on the way. You should receive it by tomorrow.")),
    (("tracking", "delivered"),
      ("Order #", " has been delivered successfully.")),
    (("tracking", "cancelled"),
      ("Order #", " has been cancelled.")),
    (("tracking", "refunded"),
      ("Order #", " has been refunded.")) ]

/-- The final hard-coded fallback template of `get_response`
    (src/agents/response_templates.py line 91), split at the placeholder. -/
def FINAL_FALLBACK_PIECES : String × String :=
  ("I've processed your request for order #", ". You'll receive confirmation shortly.")

/-- `ResponsePolicyLayer.MISSING_INFO_RESPONSES` (src/agents/response_templates.py
    lines 59-63), in insertion order. -/
def MISSING_INFO_RESPONSES : List (String × String) :=
  [ ("order_id", "I can help with that. Please share your order number so I can proceed."),
    ("issue", "I can help with your order. Could you tell me what the issue is? (wrong item, delivery problem, or general concern)"),
    ("resolution", "I understand there's an issue with your order. How would you like me to help? (refund, replacement, or cancellation)") ]

/-- `ResponsePolicyLayer.POST_RESOLUTION_RESPONSE` (src/agents/response_templates.py line 66). -/
def POST_RESOLUTION_RESPONSE : String := "Is there anything else I can help you with?"

/-- Template selection of `get_response` (src/agents/response_templates.py lines
    78-91): exact (resolution, status) key, then the ("general", status)
    fallback, then the final hard-coded fallback. -/
def getTemplatePieces (resolution_type order_status : String) : String × String :=
  match RESPONSE_TEMPLATES.lookup (resolution_type, order_status) with
  | some p => p
  | none =>
    match RESPONSE_TEMPLATES.lookup ("general", order_status) with
    | some p => p
    | none => FINAL_FALLBACK_PIECES

/-- `ResponsePolicyLayer.get_response` (src/agents/response_templates.py lines
    68-94).  The arguments are `Option String` because Python permits `None`
    here; `None` and the empty string are both falsy and normalise to
    "general" / "unknown". -/
def get_response (resolution_type order_status : Option String) (order_id : String) : String :=
  let rt := match resolution_type with
    | none => "general"
    | some s => if s = "" then "general" else pyLower s
  let st := match order_status with
    | none => "unknown"
    | some s => if s = "" then "unknown" else pyLower s
  let p := getTemplatePieces rt st
  p.1 ++ order_id ++ p.2

/-- `ResponsePolicyLayer.get_missing_info_response` (src/agents/response_templates.py
    lines 96-100). -/
def get_missing_info_response (missing_info_type : String) : String :=
  (MISSING_INFO_RESPONSES.lookup missing_info_type).getD
    "I need a bit more information to help you with your request."

/-- The `question_indicators` list of `validate_response`
    (src/agents/response_templates.py line 123). -/
def question_indicators : List String :=
  ["?", "could you", "can you", "please provide", "what", "how", "when", "where"]

/-- The `allowed_questions` whitelist of `validate_response`
    (src/agents/response_templates.py lines 127-130): the post-resolution
    template followed by the missing-info templates. -/
def allowed_questions : List String :=
  POST_RESOLUTION_RESPONSE :: MISSING_INFO_RESPONSES.map (fun p => p.2)

/-- `ResponsePolicyLayer.validate_response` (src/agents/response_templates.py
    lines 107-135).  Python truthiness of a string is non-emptiness. -/
def validate_response (response order_id : String) : Bool :=
  if response = "" then false
  else if order_id = "" then false
  else if !(pyIn order_id response) && response != POST_RESOLUTION_RESPONSE then false
  else if (question_indicators.any fun q => pyIn q (pyLower response))
            && !(allowed_questions.contains response) then false
  else true

/-- The pieces a `get_response` result can be assembled from: the 30 table
    templates plus the final hard-coded fallback. -/
def templatePieces : List (String × String) :=
  RESPONSE_TEMPLATES.map (fun p => p.2) ++ [FINAL_FALLBACK_PIECES]

/-- Decidable well-formedness of a template piece pair: the lowercased `before`
    piece ends in a hash mark, and no interrogative marker occurs in the
    lowercased `before` piece (hash mark excluded) or `after` piece. -/
def goodPiece (p : String × String) : Bool :=
  let a := (pyLower p.1).data
  let b := (pyLower p.2).data
  (a == a.dropLast ++ ['#']) &&
    question_indicators.all (fun q =>
      !(hasInfix q.data a.dropLast) && !(hasInfix q.data b))

/-! ### src/agents/dialogue_state_manager.py

The dialogue context is a Python dict whose only keys in this module are
`order_id` (an int) and `customer_id` (a string); it is modelled by the two
optional fields `ctx_order_id`/`ctx_customer_id`.  The session object only
contributes its `persistent_entities['order_number']` entry here, modelled by
`DSMSession.persistent_order_number` (the `hasattr` guards are satisfied by
the real session class).  The injected collaborators
`get_order_by_id_func`/`get_faq_answer_func` (function parameters in the
source) and `get_customer_by_id` (a data-access import reading dataset files,
i.e. I/O) are oracle parameters collected in `DSMOracles`.  Python dict
`.get(key, default)` reads of the order/customer payloads are modelled as
total record fields. -/

/-- The `Intent` enumeration (src/agents/dialogue_state_manager.py lines
    11-19).  `Intent.NONE` has payload `None` and is never stored; the
    `active_intent` field below is an `Option Intent` instead. -/
inductive Intent where
  | customer_lookup
  | order_detail_query
  | billing_issue
  | return_order
  | order_status
  | faq
deriving DecidableEq, Repr

/-- `DialogueState` (src/agents/dialogue_state_manager.py lines 21-31). -/
structure DialogueState where
  active_intent : Option Intent := none
  pending_slot : Option String := none
  ctx_order_id : Option Nat := none
  ctx_customer_id : Option String := none
  workflow_completed : Bool := false
deriving DecidableEq, Repr

/-- `DialogueState.reset` (src/agents/dialogue_state_manager.py lines 33-39). -/
def DialogueState.reset (_st : DialogueState) : DialogueState :=
  { active_intent := none, pending_slot := none, ctx_order_id := none,
    ctx_customer_id := none, workflow_completed := false }

/-- The slice of the session object used by the dialogue state manager:
    `session.persistent_entities['order_number']`. -/
structure DSMSession where
  persistent_order_number : Option String := none
deriving DecidableEq, Repr

/-- Order payload returned by `get_order_by_id_func` (dataset row). -/
structure OrderDetails where
  product : String
  amount : Nat
  platform : String
  status : String
deriving DecidableEq, Repr

/-- One row of the `orders` list inside a customer-details payload. -/
structure CustomerOrderRow where
  order_id : Nat
  product : String
  amount : Nat
  status : String
deriving DecidableEq, Repr

/-- Customer payload returned by `get_customer_by_id`
    (src/data/enhanced_data_access.py); nested summary dicts flattened into
    total fields, `platform_summary` keeps its insertion order. -/
structure CustomerDetails where
  customer_name : String
  total_orders : Nat
  total_amount : Nat
  delivered : Nat
  in_transit : Nat
  returned : Nat
  pending : Nat
  cod : Nat
  card : Nat
  upi : Nat
  wallet : Nat
  platform_summary : List (String × Nat)
  orders : List CustomerOrderRow
deriving DecidableEq, Repr

/-- The injected collaborators of `DialogueStateManager.process_message`. -/
structure DSMOracles where
  get_order_by_id : Nat → Option OrderDetails
  get_faq_answer : String → Option String
  get_customer_by_id : String → Option CustomerDetails

/-- Result of one `process_message` call: the response dict plus the mutated
    dialogue state and session slice. -/
structure DSMResult where
  response : String
  conversation_state : String
  state : DialogueState
  session : DSMSession
deriving DecidableEq, Repr

/-- `CUSTOMER_LOOKUP_KEYWORDS` (src/agents/dialogue_state_manager.py lines 53-56). -/
def CUSTOMER_LOOKUP_KEYWORDS : List String :=
  ["customer", "customer id", "customer details", "customer information",
   "cust", "details regarding customer", "customer profile"]

/-- `ORDER_DETAIL_KEYWORDS` (src/agents/dialogue_state_manager.py lines 59-64). -/
def ORDER_DETAIL_KEYWORDS : List String :=
  ["price", "cost", "amount", "details", "detail", "product", "item",
   "ordered", "order details"]

/-- `BILLING_ISSUE_KEYWORDS` (src/agents/dialogue_state_manager.py lines 67-71). -/
def BILLING_ISSUE_KEYWORDS : List String :=
  ["charged", "double", "refund", "payment", "billing", "debited", "money deducted"]

/-- `intent_keywords[Intent.RETURN_ORDER]` (src/agents/dialogue_state_manager.py lines 82-86). -/
def RETURN_ORDER_KEYWORDS : List String :=
  ["return", "exchange", "send back", "wrong item", "defective", "damaged",
   "not what i ordered", "incorrect", "faulty", "cancel", "cancellation",
   "cancel my order"]

/-- `intent_keywords[Intent.ORDER_STATUS]` (src/agents/dialogue_state_manager.py lines 89-92). -/
def ORDER_STATUS_KEYWORDS : List String :=
  ["track", "status", "where is", "when will", "shipped", "arrive", "eta",
   "tracking", "delivered"]

/-- `intent_keywords[Intent.FAQ]` (src/agents/dialogue_state_manager.py lines 98-103). -/
def FAQ_KEYWORDS : List String :=
  ["subscription", "food delivery", "internet", "connection", "issue",
   "problem", "help", "support", "question", "how to", "what is", "contact",
   "hours", "business", "app", "crashing", "technical", "coupon", "discount",
   "offer", "promo", "food", "restaurant"]

/-- `DialogueStateManager._detect_intent` (src/agents/dialogue_state_manager.py
    lines 160-203): substring keyword matching on the lowercased message in a
    strict priority order; both the FAQ-keyword branch and the final fallback
    return FAQ. -/
def detect_intent (message : String) : Intent :=
  let message_lower := pyLower message
  if CUSTOMER_LOOKUP_KEYWORDS.any (fun k => pyIn k message_lower) then .customer_lookup
  else if ORDER_DETAIL_KEYWORDS.any (fun k => pyIn k message_lower) then .order_detail_query
  else if RETURN_ORDER_KEYWORDS.any (fun k => pyIn k message_lower) then .return_order
  else if ORDER_STATUS_KEYWORDS.any (fun k => pyIn k message_lower) then .order_status
  else if BILLING_ISSUE_KEYWORDS.any (fun k => pyIn k message_lower) then .billing_issue
  else if FAQ_KEYWORDS.any (fun k => pyIn k message_lower) then .faq
  else .faq

/-- The first maximal run of decimal digits in a character sequence
    (the match of `re.search(r'(\d+)', ...)`). -/
def firstDigitRun (cs : List Char) : List Char :=
  (cs.dropWhile (fun c => !c.isDigit)).takeWhile Char.isDigit

/-- `DialogueStateManager._extract_order_id` (src/agents/dialogue_state_manager.py
    lines 205-219): `re.search(r'(\d+)')`, first digit run as an int. -/
def extract_order_id (message : String) : Option Nat :=
  if (firstDigitRun message.data).isEmpty then none
  else some (natOfDigits (firstDigitRun message.data))

/-- Scanner for `re.search(r'CUST\d+', ...)`: at each position try the literal
    CUST followed by a maximal nonempty digit run. -/
def scanCustomerId : List Char → Option String
  | [] => none
  | c :: t =>
    if (['C', 'U', 'S', 'T']).isPrefixOf (c :: t) then
      let ds := ((c :: t).drop 4).takeWhile Char.isDigit
      if ds.isEmpty then scanCustomerId t
      else some ⟨['C', 'U', 'S', 'T'] ++ ds⟩
    else scanCustomerId t

/-- `DialogueStateManager._extract_customer_id` (src/agents/dialogue_state_manager.py
    lines 221-234): `re.search(r'CUST\d+', message.upper())`. -/
def extract_customer_id (message : String) : Option String :=
  scanCustomerId (pyUpper message).data

/-- Python `"{:,}".format(n)`: decimal digits grouped in threes by commas
    (helper for the reversed digit stream). -/
def commaRev : Nat → List Char → List Char
  | _, [] => []
  | i, c :: t => (if i % 3 = 0 ∧ i ≠ 0 then [',', c] else [c]) ++ commaRev (i + 1) t

/-- Python `f"{n:,}"` on a natural number. -/
def commaFmt (n : Nat) : String :=
  ⟨(commaRev 0 (toString n).data.reverse).reverse⟩

/-- The response body built for a found customer
    (src/agents/dialogue_state_manager.py lines 345-384). -/
def customerDetailsResponse (customer_id : String) (cd : CustomerDetails) : String :=
  "📋 Customer Details for " ++ customer_id ++ ":\n\n"
  ++ "👤 Name: " ++ cd.customer_name ++ "\n"
  ++ "📦 Total Orders: " ++ toString cd.total_orders ++ "\n"
  ++ "💰 Total Amount: ₹" ++ commaFmt cd.total_amount ++ "\n\n"
  ++ "📊 Order Status Summary:\n"
  ++ "• Delivered: " ++ toString cd.delivered ++ "\n"
  ++ "• In Transit: " ++ toString cd.in_transit ++ "\n"
  ++ "• Returned: " ++ toString cd.returned ++ "\n"
  ++ "• Pending: " ++ toString cd.pending ++ "\n\n"
  ++ "💳 Payment Methods Used:\n"
  ++ "• COD: " ++ toString cd.cod ++ " orders\n"
  ++ "• Card: " ++ toString cd.card ++ " orders\n"
  ++ "• UPI: " ++ toString cd.upi ++ " orders\n"
  ++ "• Wallet: " ++ toString cd.wallet ++ " orders\n\n"
  ++ (if cd.platform_summary.isEmpty then ""
      else "🛒 Platform Usage:\n"
        ++ String.join (cd.platform_summary.map
            (fun p => "• " ++ p.1 ++ ": " ++ toString p.2 ++ " orders\n"))
        ++ "\n")
  ++ (if cd.orders.isEmpty then ""
      else "📋 Recent Orders:\n"
        ++ String.join ((cd.orders.take 3).enum.map
            (fun p => toString (p.1 + 1) ++ ". Order #" ++ toString p.2.order_id ++ ": "
              ++ p.2.product ++ " - ₹" ++ commaFmt p.2.amount ++ " (" ++ p.2.status ++ ")\n"))
        ++ (if 3 < cd.orders.length
            then "... and " ++ toString (cd.orders.length - 3) ++ " more orders\n"
            else ""))

/-- The found-customer / not-found tail of
    `DialogueStateManager._handle_customer_lookup_workflow`
    (src/agents/dialogue_state_manager.py lines 331-406); success completes the
    workflow (which resets the dialogue state), a miss clears only the invalid
    customer id and re-enters slot filling. -/
def customer_lookup_body (o : DSMOracles) (customer_id : String)
    (st : DialogueState) (sess : DSMSession) : DSMResult :=
  match o.get_customer_by_id customer_id with
  | some cd =>
      { response := customerDetailsResponse customer_id cd
        conversation_state := "customer_lookup_provided"
        state := DialogueState.reset { st with workflow_completed := true }
        session := sess }
  | none =>
      { response := "I couldn't find customer " ++ customer_id
          ++ " in our records. Please check the customer ID and try again."
        conversation_state := "customer_lookup_not_found_retry"
        state := { st with ctx_customer_id := none, pending_slot := some "customer_id" }
        session := sess }

/-- `DialogueStateManager._handle_customer_lookup_workflow`
    (src/agents/dialogue_state_manager.py lines 312-406). -/
def handle_customer_lookup_workflow (o : DSMOracles) (message : String)
    (st : DialogueState) (sess : DSMSession) : DSMResult :=
  match st.ctx_customer_id with
  | some cid => customer_lookup_body o cid st sess
  | none =>
    match extract_customer_id message with
    | some cid => customer_lookup_body o cid { st with ctx_customer_id := some cid } sess
    | none =>
        { response := "Please provide the customer ID you want to look up (e.g., CUST0001, CUST000714)."
          conversation_state := "customer_lookup_awaiting_id"
          state := { st with pending_slot := some "customer_id" }
          session := sess }

/-- The found-order / not-found tail of
    `DialogueStateManager._handle_order_detail_workflow`
    (src/agents/dialogue_state_manager.py lines 428-484). -/
def order_detail_body (o : DSMOracles) (message : String) (order_id : Nat)
    (st : DialogueState) (sess : DSMSession) : DSMResult :=
  match o.get_order_by_id order_id with
  | some od =>
      let message_lower := pyLower message
      let response :=
        if (["price", "cost", "amount"]).any (fun w => pyIn w message_lower) then
          "The price for order #" ++ toString order_id ++ " is ₹" ++ commaFmt od.amount ++ "."
        else if (["product", "item", "ordered"]).any (fun w => pyIn w message_lower) then
          "Order #" ++ toString order_id ++ " is for " ++ od.product ++ "."
        else if (["details", "detail"]).any (fun w => pyIn w message_lower) then
          "Order #" ++ toString order_id ++ " details:\n"
            ++ "• Product: " ++ od.product ++ "\n"
            ++ "• Amount: ₹" ++ commaFmt od.amount ++ "\n"
            ++ "• Platform: " ++ od.platform ++ "\n"
            ++ "• Status: " ++ od.status
        else
          "Order #" ++ toString order_id ++ " is for " ++ od.product
            ++ " with amount ₹" ++ commaFmt od.amount ++ "."
      { response := response
        conversation_state := "order_detail_provided"
        state := DialogueState.reset { st with workflow_completed := true }
        session := sess }
  | none =>
      { response := "I couldn't find that order. Please recheck the order number."
        conversation_state := "order_detail_not_found_retry"
        state := { st with ctx_order_id := none, pending_slot := some "order_id" }
        session := sess }

/-- `DialogueStateManager._handle_order_detail_workflow`
    (src/agents/dialogue_state_manager.py lines 408-484).  Python `if order_id:`
    treats the extracted int 0 as missing. -/
def handle_order_detail_workflow (o : DSMOracles) (message : String)
    (st : DialogueState) (sess : DSMSession) : DSMResult :=
  match st.ctx_order_id with
  | some oid => order_detail_body o message oid st sess
  | none =>
    match extract_order_id message with
    | some oid =>
        if oid = 0 then
          { response := "Please provide your order number so I can get the details for you."
            conversation_state := "order_detail_awaiting_order"
            state := { st with pending_slot := some "order_id" }
            session := sess }
        else order_detail_body o message oid { st with ctx_order_id := some oid } sess
    | none =>
        { response := "Please provide your order number so I can get the details for you."
          conversation_state := "order_detail_awaiting_order"
          state := { st with pending_slot := some "order_id" }
          session := sess }

/-- The ask-for-order-number branch of `_handle_billing_workflow`
    (src/agents/dialogue_state_manager.py lines 518-525). -/
def billingAsk (st : DialogueState) (sess : DSMSession) : DSMResult :=
  { response := "I can help you with billing issues. Please provide your order number so I can look into this for you."
    conversation_state := "billing_awaiting_order"
    state := { st with pending_slot := some "order_id" }
    session := sess }

/-- The lookup-and-answer tail of `_handle_billing_workflow`
    (src/agents/dialogue_state_manager.py lines 527-611).  On a lookup miss the
    invalid order id is dropped from the context (and from the persistent
    entities when it matches), the slot is re-requested and the intent is kept. -/
def billing_body (o : DSMOracles) (message : String) (order_id : Nat)
    (st : DialogueState) (sess : DSMSession) : DSMResult :=
  match o.get_order_by_id order_id with
  | some od =>
      if (["no", "not yet", "haven't received", "still waiting"]).any
          (fun w => pyIn w (pyLower message)) then
        { response := "Refunds can take 3–5 business days to appear in your account. If it has been longer than that, I will escalate this to our billing team for immediate review."
          conversation_state := "billing_refund_escalation"
          state := { st with pending_slot := none }
          session := sess }
      else if (["refund", "refunded", "money back", "didn't get"]).any
          (fun w => pyIn w (pyLower message)) then
        let status := pyLower od.status
        let response :=
          if pyIn "refund" status || status = "refunded" then
            "I see order #" ++ toString order_id
              ++ " shows as refunded. Has the amount reached your bank account yet?"
          else
            "I found your order #" ++ toString order_id ++ " for " ++ od.product
              ++ " (₹" ++ toString od.amount
              ++ "). Let me help you with the refund process. What specific issue are you experiencing?"
        { response := response
          conversation_state := "billing_refund_inquiry"
          state := { st with pending_slot := none }
          session := sess }
      else if (["charged twice", "double charge", "charged multiple"]).any
          (fun w => pyIn w (pyLower message)) then
        { response := "I found your order #" ++ toString order_id ++ " for " ++ od.product
            ++ " (₹" ++ toString od.amount
            ++ "). Double charges usually occur as temporary authorization holds that get released automatically within 3-5 business days. If you see multiple permanent charges, I can escalate this immediately."
          conversation_state := "billing_double_charge"
          state := { st with pending_slot := none }
          session := sess }
      else
        { response := "I found your order #" ++ toString order_id ++ " for " ++ od.product
            ++ " (₹" ++ commaFmt od.amount ++ "). "
            ++ "I can help you with billing issues such as:\n"
            ++ "• Refund requests and status\n"
            ++ "• Double charges or incorrect amounts\n"
            ++ "• Payment method issues\n"
            ++ "• Billing disputes\n\n"
            ++ "What specific billing issue are you experiencing with this order?"
          conversation_state := "billing_general_inquiry"
          state := { st with pending_slot := none }
          session := sess }
  | none =>
      { response := "I couldn't find that order. Please recheck the order number."
        conversation_state := "billing_order_not_found_retry"
        state := { st with ctx_order_id := none, pending_slot := some "order_id" }
        session :=
          match sess.persistent_order_number with
          | some ons =>
              if toString order_id = ons then { sess with persistent_order_number := none }
              else sess
          | none => sess }

/-- The extract-from-message step of `_handle_billing_workflow`
    (src/agents/dialogue_state_manager.py lines 510-525), entered when neither
    the dialogue context nor the persistent entities yield a (truthy) order id. -/
def billing_extract_branch (o : DSMOracles) (message : String)
    (st : DialogueState) (sess : DSMSession) : DSMResult :=
  match extract_order_id message with
  | some oid =>
      if oid = 0 then billingAsk st sess
      else billing_body o message oid
        { st with ctx_order_id := some oid }
        { sess with persistent_order_number := some (toString oid) }
  | none => billingAsk st sess

/-- `DialogueStateManager._handle_billing_workflow`
    (src/agents/dialogue_state_manager.py lines 486-611).  The order id is
    taken from the dialogue context, else parsed from
    `persistent_entities['order_number']` (and cached in the context), else
    extracted from the message; Python `if not order_id:` treats 0 as absent. -/
def handle_billing_workflow (o : DSMOracles) (message : String)
    (st : DialogueState) (sess : DSMSession) : DSMResult :=
  match st.ctx_order_id with
  | some oid =>
      if oid = 0 then billing_extract_branch o message st sess
      else billing_body o message oid st sess
  | none =>
    match sess.persistent_order_number with
    | some ons =>
        match extract_order_id ons with
        | some oid =>
            if oid = 0 then
              billing_extract_branch o message { st with ctx_order_id := some oid } sess
            else billing_body o message oid { st with ctx_order_id := some oid } sess
        | none => billing_extract_branch o message st sess
    | none => billing_extract_branch o message st sess

/-- The lookup-and-answer tail of `_handle_return_workflow`
    (src/agents/dialogue_state_manager.py lines 633-672). -/
def return_body (o : DSMOracles) (order_id : Nat)
    (st : DialogueState) (sess : DSMSession) : DSMResult :=
  match o.get_order_by_id order_id with
  | some od =>
      let status := pyLower od.status
      let response :=
        if status = "delivered" ∨ status = "returnable" then
          "I can help you return order #" ++ toString order_id ++ " (" ++ od.product ++ "). "
            ++ "To return this item, go to \x27My Orders\x27, select the item, choose a return reason, and schedule a pickup. "
            ++ "Refunds are processed within 5-7 business days after we receive the item."
        else if status = "in transit" then
          "Order #" ++ toString order_id ++ " is currently in transit. You can return it once it's delivered. "
            ++ "You'll have 7 days from delivery to initiate a return."
        else
          "Order #" ++ toString order_id ++ " has status \x27" ++ status
            ++ "\x27 and may not be eligible for return. "
            ++ "Please contact customer support for assistance with this order."
      { response := response
        conversation_state := "return_processed"
        state := DialogueState.reset { st with workflow_completed := true }
        session := sess }
  | none =>
      { response := "I couldn't find that order. Please recheck the order number."
        conversation_state := "return_order_not_found_retry"
        state := { st with ctx_order_id := none, pending_slot := some "order_id" }
        session := sess }

/-- `DialogueStateManager._handle_return_workflow`
    (src/agents/dialogue_state_manager.py lines 613-672). -/
def handle_return_workflow (o : DSMOracles) (message : String)
    (st : DialogueState) (sess : DSMSession) : DSMResult :=
  match st.ctx_order_id with
  | some oid => return_body o oid st sess
  | none =>
    match extract_order_id message with
    | some oid =>
        if oid = 0 then
          { response := "I can help you return your order. Please provide your order number so I can check the return eligibility."
            conversation_state := "return_awaiting_order"
            state := { st with pending_slot := some "order_id" }
            session := sess }
        else return_body o oid { st with ctx_order_id := some oid } sess
    | none =>
        { response := "I can help you return your order. Please provide your order number so I can check the return eligibility."
          conversation_state := "return_awaiting_order"
          state := { st with pending_slot := some "order_id" }
          session := sess }

/-- The lookup-and-answer tail of `_handle_status_workflow`
    (src/agents/dialogue_state_manager.py lines 694-739). -/
def status_body (o : DSMOracles) (order_id : Nat)
    (st : DialogueState) (sess : DSMSession) : DSMResult :=
  match o.get_order_by_id order_id with
  | some od =>
      let base :=
        if pyLower od.status = "delivered" then
          "Great news! Your order #" ++ toString order_id ++ " for " ++ od.product
            ++ " has been delivered."
        else if pyLower od.status = "in transit" then
          "Your order #" ++ toString order_id ++ " for " ++ od.product
            ++ " is currently in transit and on its way to you. "
            ++ "You should receive it within 1-2 business days."
        else if pyLower od.status = "processing" then
          "Your order #" ++ toString order_id ++ " for " ++ od.product
            ++ " is being processed and will ship soon. "
            ++ "You'll receive tracking information once it ships."
        else if pyLower od.status = "shipped" then
          "Your order #" ++ toString order_id ++ " for " ++ od.product
            ++ " has shipped and is on its way to you."
        else
          "Your order #" ++ toString order_id ++ " for " ++ od.product
            ++ " has status: " ++ od.status ++ "."
      { response := base ++ " (Ordered from " ++ od.platform ++ ")"
        conversation_state := "status_provided"
        state := DialogueState.reset { st with workflow_completed := true }
        session := sess }
  | none =>
      { response := "I couldn't find that order. Please recheck the order number."
        conversation_state := "status_order_not_found_retry"
        state := { st with ctx_order_id := none, pending_slot := some "order_id" }
        session := sess }

/-- `DialogueStateManager._handle_status_workflow`
    (src/agents/dialogue_state_manager.py lines 674-739). -/
def handle_status_workflow (o : DSMOracles) (message : String)
    (st : DialogueState) (sess : DSMSession) : DSMResult :=
  match st.ctx_order_id with
  | some oid => status_body o oid st sess
  | none =>
    match extract_order_id message with
    | some oid =>
        if oid = 0 then
          { response := "I can help you track your order. Please provide your order number to check the current status."
            conversation_state := "status_awaiting_order"
            state := { st with pending_slot := some "order_id" }
            session := sess }
        else status_body o oid { st with ctx_order_id := some oid } sess
    | none =>
        { response := "I can help you track your order. Please provide your order number to check the current status."
          conversation_state := "status_awaiting_order"
          state := { st with pending_slot := some "order_id" }
          session := sess }

/-- `DialogueStateManager._handle_faq_workflow`
    (src/agents/dialogue_state_manager.py lines 741-759); always completes the
    workflow.  Python `if faq_answer:` treats an empty answer as missing. -/
def handle_faq_workflow (o : DSMOracles) (message : String)
    (st : DialogueState) (sess : DSMSession) : DSMResult :=
  let response :=
    match o.get_faq_answer message with
    | some a =>
        if a = "" then
          "I can help you with orders, returns, billing issues, and general questions. What would you like assistance with?"
        else a
    | none =>
        "I can help you with orders, returns, billing issues, and general questions. What would you like assistance with?"
  { response := response
    conversation_state := "faq_answered"
    state := DialogueState.reset { st with workflow_completed := true }
    session := sess }

/-- `DialogueStateManager._handle_fallback`
    (src/agents/dialogue_state_manager.py lines 761-786). -/
def handle_fallback (o : DSMOracles) (message : String)
    (st : DialogueState) (sess : DSMSession) : DSMResult :=
  match o.get_faq_answer message with
  | some a =>
      if a = "" then
        { response := "I'm here to help! I can assist you with:\n• Order tracking and status updates\n• Returns and exchanges\n• Billing and payment issues\n• General questions\n\nWhat would you like help with today?"
          conversation_state := "generic_help", state := st, session := sess }
      else
        { response := a, conversation_state := "faq_fallback", state := st, session := sess }
  | none =>
      { response := "I'm here to help! I can assist you with:\n• Order tracking and status updates\n• Returns and exchanges\n• Billing and payment issues\n• General questions\n\nWhat would you like help with today?"
        conversation_state := "generic_help", state := st, session := sess }

/-- `DialogueStateManager._route_workflow`
    (src/agents/dialogue_state_manager.py lines 291-310); the final `else`
    (FAQ fallback) also covers a missing intent. -/
def route_workflow (o : DSMOracles) (message : String)
    (st : DialogueState) (sess : DSMSession) : DSMResult :=
  match st.active_intent with
  | some .customer_lookup => handle_customer_lookup_workflow o message st sess
  | some .order_detail_query => handle_order_detail_workflow o message st sess
  | some .order_status => handle_status_workflow o message st sess
  | some .return_order => handle_return_workflow o message st sess
  | some .billing_issue => handle_billing_workflow o message st sess
  | _ => handle_faq_workflow o message st sess

/-- `DialogueStateManager._handle_slot_filling`
    (src/agents/dialogue_state_manager.py lines 236-289).  On a successful
    order-id extraction (Python-truthy, i.e. nonzero) the id is stored in the
    dialogue context and in `persistent_entities['order_number']`, the pending
    slot is cleared and the workflow continues; on failure the same slot is
    re-requested and no state is touched. -/
def handle_slot_filling (o : DSMOracles) (message : String)
    (st : DialogueState) (sess : DSMSession) : DSMResult :=
  if st.pending_slot = some "order_id" then
    match extract_order_id message with
    | some oid =>
        if oid = 0 then
          { response := "I need your order number to help you. Please provide your order number (e.g., 45, ORD45, or #45)."
            conversation_state := "awaiting_order_id", state := st, session := sess }
        else
          route_workflow o message
            { st with ctx_order_id := some oid, pending_slot := none }
            { sess with persistent_order_number := some (toString oid) }
    | none =>
        { response := "I need your order number to help you. Please provide your order number (e.g., 45, ORD45, or #45)."
          conversation_state := "awaiting_order_id", state := st, session := sess }
  else if st.pending_slot = some "customer_id" then
    match extract_customer_id message with
    | some cid =>
        route_workflow o message
          { st with ctx_customer_id := some cid, pending_slot := none } sess
    | none =>
        { response := "I need a valid customer ID to help you. Please provide your customer ID (e.g., CUST0001, CUST000714)."
          conversation_state := "awaiting_customer_id", state := st, session := sess }
  else
    { response := "I didn't understand that. Could you please provide the information I requested?"
      conversation_state := "slot_filling_error", state := st, session := sess }

/-- `DialogueStateManager.process_message`
    (src/agents/dialogue_state_manager.py lines 122-158).  The pending slot is
    only ever `None`, "order_id" or "customer_id", so Python string truthiness
    coincides with `isSome`; `_detect_intent` never returns `Intent.NONE`, so
    an intent is always locked when none is active. -/
def process_message (o : DSMOracles) (message : String)
    (st : DialogueState) (sess : DSMSession) : DSMResult :=
  if st.pending_slot.isSome then handle_slot_filling o message st sess
  else
    let st₁ :=
      match st.active_intent with
      | none => { st with active_intent := some (detect_intent message) }
      | some _ => st
    match st₁.active_intent with
    | some _ => route_workflow o message st₁ sess
    | none => handle_fallback o message st₁ sess

/-- All dialogue states reachable by a sequence of `process_message` calls
    from a starting point. -/
def runDSM (o : DSMOracles) (msgs : List String)
    (p : DialogueState × DSMSession) : DialogueState × DSMSession :=
  msgs.foldl
    (fun acc m =>
      ((process_message o m acc.1 acc.2).state, (process_message o m acc.1 acc.2).session))
    p

/-! ### src/agents/nlp_processor.py — `detect_complete_request`

The four order-id regexes are compiled into deterministic scanners.  The
character classes involved (`\s`, `#`, `[A-Z0-9]` with IGNORECASE, `\d`,
`[A-Z]` with IGNORECASE) are pairwise disjoint wherever the patterns allow
flexibility, so greedy maximal-munch matching coincides with Python
backtracking; `re.search` semantics (try every start position from the left)
is the surrounding position scan. -/

/-- Python `\w` (ASCII): a word character. -/
def isWordChar (c : Char) : Bool := c.isAlpha || c.isDigit || c = '_'

/-- `[A-Z0-9]` under IGNORECASE: ASCII letters and digits. -/
def isAlnumChar (c : Char) : Bool := c.isAlpha || c.isDigit

/-- Try a position-local matcher at every start position, leftmost first
    (`re.search`). -/
def searchAt (f : List Char → Option (List Char)) : List Char → Option (List Char)
  | [] => f []
  | c :: t =>
    match f (c :: t) with
    | some r => some r
    | none => searchAt f t

/-- Like `searchAt` but the matcher also sees the previous character, for
    word-boundary (`\b`) tests. -/
def searchAtPrev (f : Option Char → List Char → Option (List Char)) :
    Option Char → List Char → Option (List Char)
  | prev, [] => f prev []
  | prev, c :: t =>
    match f prev (c :: t) with
    | some r => some r
    | none => searchAtPrev f (some c) t

/-- Matcher for `order\s*#?\s*([A-Z0-9]{3,8})` (IGNORECASE) at one position. -/
def matchOrderP1 (cs : List Char) : Option (List Char) :=
  if (cs.take 5).map Char.toLower = ['o', 'r', 'd', 'e', 'r'] ∧ 5 ≤ cs.length then
    let r1 := (cs.drop 5).dropWhile Char.isWhitespace
    let r2 := match r1 with
      | '#' :: t => t.dropWhile Char.isWhitespace
      | _ => r1
    let grp := (r2.takeWhile isAlnumChar).take 8
    if 3 ≤ grp.length then some grp else none
  else none

/-- Matcher for `#([A-Z0-9]{3,8})` at one position. -/
def matchOrderP2 (cs : List Char) : Option (List Char) :=
  match cs with
  | '#' :: t =>
    let grp := (t.takeWhile isAlnumChar).take 8
    if 3 ≤ grp.length then some grp else none
  | _ => none

/-- Matcher for `\b(\d{4,8})\b` at one position: a maximal digit run of
    length 4-8 delimited by word boundaries. -/
def matchOrderP3 (prev : Option Char) (cs : List Char) : Option (List Char) :=
  let boundary := match prev with
    | none => true
    | some p => !isWordChar p
  if boundary then
    let d := cs.takeWhile Char.isDigit
    if 4 ≤ d.length ∧ d.length ≤ 8 ∧ !isWordChar ((cs.drop d.length).headD ' ') then
      some d
    else none
  else none

/-- Matcher for `\b([A-Z]{2,3}\d{4,6})\b` (IGNORECASE) at one position: an
    exact letter run of length 2-3 followed by a maximal digit run of length
    4-6, delimited by word boundaries. -/
def matchOrderP4 (prev : Option Char) (cs : List Char) : Option (List Char) :=
  let boundary := match prev with
    | none => true
    | some p => !isWordChar p
  if boundary then
    let l := cs.takeWhile Char.isAlpha
    let d := (cs.drop l.length).takeWhile Char.isDigit
    let rest := cs.drop (l.length + d.length)
    if (2 ≤ l.length ∧ l.length ≤ 3) ∧ (4 ≤ d.length ∧ d.length ≤ 6)
        ∧ (rest.isEmpty ∨ !isWordChar (rest.headD ' ')) then
      some (l ++ d)
    else none
  else none

/-- The stop-word filter of the order-id extraction
    (src/agents/nlp_processor.py lines 470-472 and 510-512). -/
def ORDER_ID_STOPWORDS : List String :=
  ["is", "my", "the", "and", "but", "got", "want", "need", "status", "arrive",
   "delivery", "order", "track", "where", "when", "will"]

/-- The validation applied to a candidate id: not a stop word, and either all
    digits (Python `str.isdigit`, false on empty) or at least 3 characters
    containing a digit. -/
def validateOrderToken (tok : List Char) : Bool :=
  !(ORDER_ID_STOPWORDS.contains (⟨tok.map Char.toLower⟩ : String)) &&
    ((!tok.isEmpty && tok.all Char.isDigit) || (3 ≤ tok.length && tok.any Char.isDigit))

/-- One step of the pattern loop: keep the first match of this pattern if it
    validates, otherwise move on to the next pattern. -/
def tryPattern (search : List Char → Option (List Char)) (cs : List Char)
    (fallback : Option String) : Option String :=
  match search cs with
  | some tok => if validateOrderToken tok then some ⟨tok⟩ else fallback
  | none => fallback

/-- The order-id extraction loop of `detect_complete_request`
    (src/agents/nlp_processor.py lines 457-474 and 497-514): the four
    patterns in order, first validated match wins. -/
def orderIdFromPatterns (message : String) : Option String :=
  tryPattern (searchAt matchOrderP1) message.data
    (tryPattern (searchAt matchOrderP2) message.data
      (tryPattern (searchAtPrev matchOrderP3 none) message.data
        (tryPattern (searchAtPrev matchOrderP4 none) message.data none)))

/-- `tracking_keywords` (src/agents/nlp_processor.py line 453). -/
def TRACKING_KEYWORDS : List String :=
  ["track", "tracking", "status", "where is", "when will", "delivery",
   "shipment", "shipped", "delivered", "eta", "arrive"]

/-- `support_indicators` (src/agents/nlp_processor.py line 487). -/
def SUPPORT_INDICATORS : List String :=
  ["refund", "replacement", "cancel", "wrong", "damaged", "delayed", "broken", "return"]

/-- The `CompleteRequest` value object returned by `detect_complete_request`. -/
structure CompleteRequest where
  order_id : Option String
  issue : Option String
  resolution : Option String
  is_complete : Bool
  is_tracking : Bool
deriving DecidableEq, Repr

/-- Python string-or-None truthiness: present and nonempty. -/
def truthyOpt (o : Option String) : Bool :=
  match o with
  | some s => !(s = "")
  | none => false

/-- Issue detection of `detect_complete_request`
    (src/agents/nlp_processor.py lines 516-529). -/
def nlpIssue (message : String) : Option String :=
  if (["got wrong", "received wrong", "wrong item", "instead of", "but got",
       "sent wrong", "incorrect"]).any (fun k => pyIn k (pyLower message)) then
    some "wrong_item"
  else if (["delayed", "late", "not arrived", "hasn't arrived", "delivery",
       "shipping"]).any (fun k => pyIn k (pyLower message)) then
    some "delivery"
  else if (["damaged", "broken", "defective", "not working"]).any
      (fun k => pyIn k (pyLower message)) then
    some "damaged"
  else none

/-- Resolution detection of `detect_complete_request`
    (src/agents/nlp_processor.py lines 531-544). -/
def nlpResolution (message : String) : Option String :=
  if (["refund", "money back", "want refund", "need refund"]).any
      (fun k => pyIn k (pyLower message)) then
    some "refund"
  else if (["replacement", "replace", "new one", "send another"]).any
      (fun k => pyIn k (pyLower message)) then
    some "replacement"
  else if (["cancel", "cancellation", "cancel order"]).any
      (fun k => pyIn k (pyLower message)) then
    some "cancel"
  else none

/-- Step 4 of `detect_complete_request` (src/agents/nlp_processor.py lines
    546-566): the completeness decision, with Python truthiness made explicit. -/
def finalize_complete_request (order_id issue resolution : Option String) : CompleteRequest :=
  if resolution = some "refund" ∨ resolution = some "replacement" then
    let issue₁ :=
      if !truthyOpt issue && truthyOpt order_id && truthyOpt resolution
      then some "general" else issue
    ⟨order_id, issue₁, resolution,
      truthyOpt order_id && truthyOpt issue₁ && truthyOpt resolution, false⟩
  else if resolution = some "cancel" then
    ⟨order_id, some "cancel", resolution, truthyOpt order_id && truthyOpt resolution, false⟩
  else
    ⟨order_id, issue, resolution, false, false⟩

/-- The non-tracking part of `detect_complete_request`
    (src/agents/nlp_processor.py lines 486-566). -/
def nonTrackingRequest (message : String) : CompleteRequest :=
  if !(SUPPORT_INDICATORS.any fun k => pyIn k (pyLower message)) then
    ⟨none, none, none, false, false⟩
  else
    finalize_complete_request (orderIdFromPatterns message) (nlpIssue message)
      (nlpResolution message)

/-- `NLPProcessor.detect_complete_request` (src/agents/nlp_processor.py lines
    439-566): the tracking short-circuit fires when a tracking keyword occurs
    and an order id is extracted, otherwise the support-indicator path runs. -/
def detect_complete_request (message : String) : CompleteRequest :=
  if TRACKING_KEYWORDS.any (fun k => pyIn k (pyLower message)) then
    match orderIdFromPatterns message with
    | some oid => ⟨some oid, some "tracking", some "tracking", true, true⟩
    | none => nonTrackingRequest message
  else nonTrackingRequest message

/-! ### The session memory consumed by the router

`SessionMemory` lives in memory/session_manager.py, which is not part of the
source tree here (only its callers are).  Its state and the methods the
router and resolver call are therefore modelled from the spec (§3 Session,
§4.3, §4.5); the order states themselves reuse the `OrderState` machine from
src/agents/state_machine.py. -/

/-- Modelled from the spec: the Session record of §3 — `resolved`, the owned
    `orderStates` map, the conversation history and the short-term follow-up
    memory (`lastIntent`/`lastOrderId`/`lastOrderStatus`), plus the resolver's
    `last_resolved_order_id`/`last_resolution_type`. -/
structure SessionMemory where
  resolved : Bool := false
  order_states : List (String × OrderState) := []
  history : List (String × String) := []
  last_intent : Option String := none
  last_order_id : Option String := none
  last_order_status : Option String := none
  last_resolved_order_id : Option String := none
  last_resolution_type : Option String := none

/-- Modelled from the spec: `SessionMemory.is_resolved` reads the session's
    `resolved` flag. -/
def SessionMemory.is_resolved (s : SessionMemory) : Bool := s.resolved

/-- Modelled from the spec: `SessionMemory.get_order_state` looks the order up
    in the owned `orderStates` map. -/
def SessionMemory.get_order_state (s : SessionMemory) (order_id : String) : Option OrderState :=
  s.order_states.lookup order_id

/-- Modelled from the spec (§3: OrderState "created lazily on first reference
    to an order id within a session"): `get_or_create_order_state`. -/
def SessionMemory.get_or_create_order_state (s : SessionMemory) (order_id : String) :
    OrderState × SessionMemory :=
  match s.order_states.lookup order_id with
  | some st => (st, s)
  | none =>
      (OrderState.init order_id,
        { s with order_states := (order_id, OrderState.init order_id) :: s.order_states })

/-- Modelled from the spec (§3: order state "mutated only through
    `transitionTo`", §4.3): `transition_order_status` applies
    `OrderState.transition_to` to the mapped state and, on success, records
    the optional tracking number and delivery eta via `update_tracking`. -/
def SessionMemory.transition_order_status (s : SessionMemory) (order_id : String)
    (target : OrderStatus) (tracking_number : Option String)
    (delivery_eta : Option String) : SessionMemory :=
  { s with
    order_states := s.order_states.map (fun p =>
      if p.1 = order_id then
        (p.1,
          let r := p.2.transition_to target
          if r.1 then
            match tracking_number with
            | some tn => r.2.update_tracking tn delivery_eta
            | none => r.2
          else r.2)
      else p) }

/-- Modelled from the spec (§3 conversationHistory): append one
    (text, sender) entry. -/
def SessionMemory.add_message (s : SessionMemory) (text sender : String) : SessionMemory :=
  { s with history := s.history ++ [(text, sender)] }

/-- Modelled from the spec (§3 short-term follow-up memory):
    `update_conversation_memory`. -/
def SessionMemory.update_conversation_memory (s : SessionMemory)
    (intent order_id order_state : String) : SessionMemory :=
  { s with last_intent := some intent, last_order_id := some order_id,
           last_order_status := some order_state }

/-- Modelled from the spec: `clear_conversation_memory` drops the short-term
    follow-up memory. -/
def SessionMemory.clear_conversation_memory (s : SessionMemory) : SessionMemory :=
  { s with last_intent := none, last_order_id := none, last_order_status := none }

/-- Modelled from the spec (§4.5 step 4 "clear transient context"):
    `clear_active_context`. -/
def SessionMemory.clear_active_context (s : SessionMemory) : SessionMemory :=
  s.clear_conversation_memory

/-- Modelled from the spec: `mark_resolved` raises the `resolved` flag and
    records what was resolved (used by the conversation manager). -/
def SessionMemory.mark_resolved (s : SessionMemory) (order_id intent : String) : SessionMemory :=
  { s with resolved := true, last_resolved_order_id := some order_id,
           last_resolution_type := some intent }

/-! ### src/agents/deterministic_resolver.py and src/agents/router_agent.py -/

/-- The `issue_context` dict of a router result, one optional field per key
    ever written by the deterministic paths. -/
structure IssueContext where
  follow_up : Bool := false
  last_intent : Option String := none
  last_order_id : Option String := none
  tracking_shortcut : Bool := false
  no_resolution_prompt : Bool := false
  deterministic_resolution : Bool := false
  flow_terminated : Bool := false
  no_further_routing : Bool := false
  tracking_request : Bool := false
  missing_order_id : Bool := false
  missing_info : Option String := none
  deterministic_flow : Bool := false
  post_resolution : Bool := false
  flow_complete : Bool := false

/-- The result dict of `RouterAgent.process_with_context`; the deterministic
    paths only ever emit the confidence literal 1.0, modelled as the natural
    number 1. -/
structure RouterResult where
  response : String
  intents : List String
  entities_order_number : List String
  confidence_scores : List (String × Nat)
  agents_used : List String
  is_multi_intent : Bool
  issue_context : IssueContext
  session_summary : String

/-- `DeterministicResolver._apply_business_logic`
    (src/agents/deterministic_resolver.py lines 128-155). -/
def apply_business_logic (current_status : String) (resolution : Option String) : String :=
  if resolution = some "tracking" then
    if current_status = "unknown" then "shipped" else current_status
  else if resolution = some "refund" then
    if current_status = "processing" ∨ current_status = "unknown" then "refunded"
    else current_status
  else if resolution = some "replacement" then
    if current_status = "processing" ∨ current_status = "unknown"
        ∨ current_status = "shipped" ∨ current_status = "delivered" then "replacement_sent"
    else current_status
  else if resolution = some "cancel" then
    if current_status = "processing" ∨ current_status = "unknown" then "cancelled"
    else current_status
  else current_status

/-- `DeterministicResolver.validate_complete_request`
    (src/agents/deterministic_resolver.py lines 157-181). -/
def validate_complete_request (order_id issue resolution : Option String) : Bool :=
  match order_id with
  | none => false
  | some oid =>
    if oid = "" then false
    else if (pyStrip oid).data.length < 3 then false
    else if issue = some "tracking" ∧ resolution = some "tracking" then true
    else if !(resolution = some "refund" ∨ resolution = some "replacement"
        ∨ resolution = some "cancel" ∨ resolution = some "tracking") then false
    else if resolution = some "cancel" then true
    else
      match issue with
      | none => false
      | some iss =>
          (["wrong_item", "delivery", "damaged", "general", "cancel", "tracking"]).contains iss

/-- `DeterministicResolver.resolve_complete_request`
    (src/agents/deterministic_resolver.py lines 18-86).  The status-transition
    `try/except` is the `orderStatusOfValue` match (an unknown status string
    raises and is swallowed). -/
def resolve_complete_request (order_id : String) (resolution : Option String)
    (s : SessionMemory) : RouterResult × SessionMemory :=
  let gc := s.get_or_create_order_state order_id
  let current_status := gc.1.status.value
  let new_status := apply_business_logic current_status resolution
  let sAfter :=
    if resolution = some "tracking" then
      if current_status = "unknown" then
        gc.2.transition_order_status order_id OrderStatus.shipped
          (some ("TRK" ++ order_id ++ "789")) (some "tomorrow")
      else gc.2
    else
      if new_status ≠ current_status then
        match orderStatusOfValue new_status with
        | some target => gc.2.transition_order_status order_id target none none
        | none => gc.2
      else gc.2
  let response₀ :=
    if resolution = some "tracking" then
      get_response (some "tracking") (some current_status) order_id
    else get_response resolution (some current_status) order_id
  let response :=
    if validate_response response₀ order_id then response₀
    else
      "I've processed your " ++ (match resolution with | some r => r | none => "None")
        ++ " request for order #" ++ order_id ++ ". You'll receive confirmation shortly."
  let s₂ :=
    ({ sAfter with
        resolved := true
        last_resolved_order_id := some order_id
        last_resolution_type := resolution } : SessionMemory).clear_active_context
  ({ response := response
     intents := ["resolution_complete"]
     entities_order_number := [order_id]
     confidence_scores := [("resolution_complete", 1)]
     agents_used := ["deterministic_resolver"]
     is_multi_intent := false
     issue_context := { deterministic_resolution := true, flow_terminated := true,
                        no_further_routing := true }
     session_summary := "Resolved "
       ++ (match resolution with | some r => r | none => "None")
       ++ " for order #" ++ order_id }, s₂)

/-- `DeterministicResolver.handle_missing_info`
    (src/agents/deterministic_resolver.py lines 88-106). -/
def handle_missing_info (missing : String) : RouterResult :=
  { response := get_missing_info_response missing
    intents := ["missing_info"]
    entities_order_number := []
    confidence_scores := [("missing_info", 1)]
    agents_used := ["deterministic_resolver"]
    is_multi_intent := false
    issue_context := { missing_info := some missing, deterministic_flow := true }
    session_summary := "Requesting missing " ++ missing }

/-- `DeterministicResolver.handle_post_resolution`
    (src/agents/deterministic_resolver.py lines 108-126). -/
def handle_post_resolution : RouterResult :=
  { response := POST_RESOLUTION_RESPONSE
    intents := ["post_resolution"]
    entities_order_number := []
    confidence_scores := [("post_resolution", 1)]
    agents_used := ["deterministic_resolver"]
    is_multi_intent := false
    issue_context := { post_resolution := true, flow_complete := true }
    session_summary := "Post-resolution assistance" }

/-- `RouterAgent._get_canonical_tracking_response`
    (src/agents/router_agent.py lines 612-634); the eta sentence is appended
    only when the delivery eta is Python-truthy. -/
def get_canonical_tracking_response (order_id : String)
    (order_state : Option OrderState) : String :=
  match order_state with
  | none => "I couldn't find order #" ++ order_id ++ ". Please double-check the order number."
  | some st =>
    if st.status.value = "processing" then
      "Order #" ++ order_id ++ " is currently being processed and will ship soon."
    else if st.status.value = "shipped" then
      "Order #" ++ order_id ++ " has been shipped and is on the way."
        ++ (match st.delivery_eta with
            | some eta => if eta = "" then "" else " You should receive it by " ++ eta ++ "."
            | none => "")
    else if st.status.value = "delivered" then
      "Order #" ++ order_id ++ " has been delivered successfully."
    else if st.status.value = "cancelled" then
      "Order #" ++ order_id ++ " has been cancelled."
    else if st.status.value = "refunded" then
      "Order #" ++ order_id ++ " has been refunded."
    else
      "Order #" ++ order_id ++ " has been shipped and is on the way."

/-- The collaborators `process_with_context` consumes beyond the session
    state: the follow-up signature test and cached follow-up answer
    (SessionMemory methods, modelled from spec §4.5 step 2), and the step-3
    general-NLP fallback (`nlp.process_message` scoring plus the agents — the
    spec's out-of-scope LLM path, whose floating-point intent scores are not
    shallow-embeddable).  Every theorem below holds for every choice of
    these. -/
structure RouterCollab where
  is_follow_up : SessionMemory → String → Bool
  follow_up_response : SessionMemory → String
  fallback : String → SessionMemory → RouterResult × SessionMemory

/-- `RouterAgent.process_with_context` (src/agents/router_agent.py lines
    28-251): the resolved gate, the follow-up branch, the tracking
    short-circuit, the complete-request resolution, the missing-info
    branches, and the step-3 fallback. -/
def process_with_context (collab : RouterCollab) (message : String)
    (s : SessionMemory) : RouterResult × SessionMemory :=
  if s.is_resolved then (handle_post_resolution, s)
  else if collab.is_follow_up s message then
    let fr := collab.follow_up_response s
    ({ response := fr
       intents := ["tracking_followup"]
       entities_order_number := match s.last_order_id with | some oid => [oid] | none => []
       confidence_scores := [("tracking_followup", 1)]
       agents_used := ["conversation_memory"]
       is_multi_intent := false
       issue_context := { follow_up := true, last_intent := s.last_intent,
                          last_order_id := s.last_order_id }
       session_summary := "Follow-up response for order #"
         ++ (match s.last_order_id with | some oid => oid | none => "None") },
      (s.add_message message "user").add_message fr "bot")
  else
    let cr := detect_complete_request message
    if cr.is_tracking && truthyOpt cr.order_id then
      let oid := match cr.order_id with | some oid => oid | none => ""
      let gc := s.get_or_create_order_state oid
      let s₂ :=
        if gc.1.status = OrderStatus.unknown then
          (gc.2.transition_order_status oid OrderStatus.processing none none).transition_order_status
            oid OrderStatus.shipped (some ("TRK" ++ oid ++ "789")) (some "tomorrow")
        else gc.2
      let order_state₂ :=
        if gc.1.status = OrderStatus.unknown then s₂.get_order_state oid
        else some gc.1
      let tracking_response := get_canonical_tracking_response oid order_state₂
      let current_status := match order_state₂ with
        | some st => st.status.value
        | none => ""
      let s₃ := s₂.update_conversation_memory "tracking" oid current_status
      ({ response := tracking_response
         intents := ["order_tracking"]
         entities_order_number := [oid]
         confidence_scores := [("order_tracking", 1)]
         agents_used := ["tracking_shortcut"]
         is_multi_intent := false
         issue_context := { tracking_shortcut := true, no_resolution_prompt := true }
         session_summary := "Tracking status for order #" ++ oid },
        (s₃.add_message message "user").add_message tracking_response "bot")
    else if cr.is_complete && validate_complete_request cr.order_id cr.issue cr.resolution then
      let oid := match cr.order_id with | some oid => oid | none => ""
      let r := resolve_complete_request oid cr.resolution s
      (r.1, (r.2.add_message message "user").add_message r.1.response "bot")
    else
      let missing_info :=
        (if !truthyOpt cr.order_id then ["order_id"] else [])
          ++ (if !truthyOpt cr.resolution then ["resolution"] else [])
          ++ (if !truthyOpt cr.issue && cr.resolution ≠ some "cancel" then ["issue"] else [])
      if (cr.is_tracking
            || (["track", "tracking", "status", "where is", "delivery"]).any
                (fun k => pyIn k (pyLower message)))
          && !truthyOpt cr.order_id then
        let s₁ := s.clear_conversation_memory
        ({ response := "I can help you track your order. Please provide your order number so I can check the status for you."
           intents := ["order_tracking"]
           entities_order_number := []
           confidence_scores := [("order_tracking", 1)]
           agents_used := ["tracking_request"]
           is_multi_intent := false
           issue_context := { tracking_request := true, missing_order_id := true }
           session_summary := "Tracking request - asking for order number" },
          (s₁.add_message message "user").add_message
            "I can help you track your order. Please provide your order number so I can check the status for you." "bot")
      else if !missing_info.isEmpty
          && (truthyOpt cr.order_id || truthyOpt cr.resolution || truthyOpt cr.issue) then
        let ask_for :=
          if missing_info.contains "resolution" then "resolution"
          else if missing_info.contains "order_id" then "order_id"
          else missing_info.headD "order_id"
        let r := handle_missing_info ask_for
        (r, (s.add_message message "user").add_message r.response "bot")
      else
        let s₁ :=
          if (match s.last_intent with
              | some li => !(li = "") && !(li = "general")
              | none => false) then
            s.clear_conversation_memory
          else s
        collab.fallback message s₁

/-- `HumanConversationManager.process_human_conversation`
    (src/agents/human_conversation_manager.py lines 14-55): the resolved gate,
    then the router, then `mark_resolved` when a deterministic resolution
    happened (the entities/intents defaults of the Python `.get` chain are
    "unknown"). -/
def process_human_conversation (collab : RouterCollab) (message : String)
    (s : SessionMemory) : RouterResult × SessionMemory :=
  if s.resolved then (handle_post_resolution, s)
  else
    let r := process_with_context collab message s
    if r.1.issue_context.deterministic_resolution then
      (r.1, r.2.mark_resolved (r.1.entities_order_number.headD "unknown")
        (r.1.intents.headD "unknown"))
    else r

/-- Scenario 1 input of §8 of the spec. -/
def SCENARIO_ONE : String := "Order 12345 got wrong item, want refund"

/-- A freshly created session: nothing resolved, no orders, no memory. -/
def freshSession : SessionMemory :=
  { resolved := false, order_states := [], history := [], last_intent := none,
    last_order_id := none, last_order_status := none, last_resolved_order_id := none,
    last_resolution_type := none }

/-- The tracking short-circuit body of `process_with_context`
    (src/agents/router_agent.py lines 76-123), with the extracted order id
    substituted. -/
def trackingBranch (message : String) (s : SessionMemory) (oid : String) :
    RouterResult × SessionMemory :=
  let gc := s.get_or_create_order_state oid
  let s₂ :=
    if gc.1.status = OrderStatus.unknown then
      (gc.2.transition_order_status oid OrderStatus.processing none none).transition_order_status
        oid OrderStatus.shipped (some ("TRK" ++ oid ++ "789")) (some "tomorrow")
    else gc.2
  let order_state₂ :=
    if gc.1.status = OrderStatus.unknown then s₂.get_order_state oid
    else some gc.1
  let tracking_response := get_canonical_tracking_response oid order_state₂
  let current_status := match order_state₂ with
    | some st => st.status.value
    | none => ""
  let s₃ := s₂.update_conversation_memory "tracking" oid current_status
  ({ response := tracking_response
     intents := ["order_tracking"]
     entities_order_number := [oid]
     confidence_scores := [("order_tracking", 1)]
     agents_used := ["tracking_shortcut"]
     is_multi_intent := false
     issue_context := { tracking_shortcut := true, no_resolution_prompt := true }
     session_summary := "Tracking status for order #" ++ oid },
    (s₃.add_message message "user").add_message tracking_response "bot")

theorem hasInfix_correct (n : List Char) (h : List Char) :
    hasInfix n h = true ↔ n <:+: h := by
  induction h with
  | nil => simp [hasInfix, List.isEmpty_iff]
  | cons c t ih =>
      simp [hasInfix, List.infix_cons_iff, List.isPrefixOf_iff_prefix, ih]

/-- C1: a transition not in the §4.3 table returns false and leaves the status
    unchanged, a transition in the table returns true and installs the target
    status, and in particular CANCELLED from a SHIPPED order is rejected with
    the status remaining SHIPPED. -/
theorem transition_to_sound (st : OrderState) (t : OrderStatus) :
    ((st.transition_to t).1 = can_transition_order st.status t)
    ∧ ((st.transition_to t).2.status
        = if can_transition_order st.status t then t else st.status)
    ∧ (st.status = OrderStatus.shipped →
        (st.transition_to OrderStatus.cancelled).1 = false
        ∧ (st.transition_to OrderStatus.cancelled).2.status = OrderStatus.shipped) := by
  obtain ⟨oid, s, eta, tn⟩ := st
  refine ⟨?_, ?_, ?_⟩
  · cases s <;> cases t <;> rfl
  · cases s <;> cases t <;> rfl
  · intro hs
    cases s <;> simp_all [OrderState.transition_to, can_transition_order, ORDER_TRANSITIONS]

/-- Witness for C1 at a concrete shipped order and the CANCELLED target. -/
theorem transition_to_sound_witness :
    ((OrderState.transition_to ⟨"45", .shipped, none, none⟩ OrderStatus.cancelled).1 = false)
    ∧ (OrderState.transition_to ⟨"45", .shipped, none, none⟩ OrderStatus.cancelled).2.status
        = OrderStatus.shipped :=
  (transition_to_sound ⟨"45", .shipped, none, none⟩ OrderStatus.cancelled).2.2 rfl

/-! ### Substring decomposition lemmas

`validate_response` scans the lowercased response for interrogative markers.
Every `get_response` output has the shape `before ++ order_id ++ after` with
`before` ending in a hash mark and the order id consisting of digits, so a
marker (which contains neither digits nor hash marks) can only occur inside
one of the two fixed template pieces.  The lemmas below make that argument. -/

theorem prefix_append_split {α : Type} {m xs ys : List α} (h : m <+: xs ++ ys) :
    m <+: xs ∨ ∃ m₂, m = xs ++ m₂ ∧ m₂ <+: ys := by
  induction xs generalizing m with
  | nil => exact Or.inr ⟨m, rfl, by simpa using h⟩
  | cons x xs ih =>
      cases m with
      | nil => exact Or.inl (List.nil_prefix)
      | cons c m' =>
          rw [List.cons_append, List.cons_prefix_cons] at h
          obtain ⟨rfl, h'⟩ := h
          rcases ih h' with h₁ | ⟨m₂, rfl, h₂⟩
          · exact Or.inl (List.cons_prefix_cons.mpr ⟨rfl, h₁⟩)
          · exact Or.inr ⟨m₂, by simp, h₂⟩

theorem infix_append_split {α : Type} {m xs ys : List α} (h : m <:+: xs ++ ys) :
    m <:+: xs ∨ m <:+: ys ∨
      ∃ m₁ m₂, m = m₁ ++ m₂ ∧ m₁ ≠ [] ∧ m₂ ≠ [] ∧ m₁ <:+ xs ∧ m₂ <+: ys := by
  induction xs generalizing m with
  | nil => exact Or.inr (Or.inl (by simpa using h))
  | cons x xs ih =>
      rw [List.cons_append, List.infix_cons_iff] at h
      rcases h with hpre | hinf
      · have hpre' : m <+: (x :: xs) ++ ys := by simpa using hpre
        rcases prefix_append_split hpre' with h₁ | ⟨m₂, rfl, h₂⟩
        · exact Or.inl h₁.isInfix
        · cases m₂ with
          | nil => exact Or.inl (by simp)
          | cons d m₂' =>
              exact Or.inr (Or.inr ⟨x :: xs, d :: m₂', rfl, by simp, by simp,
                List.suffix_rfl, h₂⟩)
      · rcases ih hinf with h₁ | h₂ | ⟨m₁, m₂, rfl, hne₁, hne₂, hsuf, hpre₂⟩
        · exact Or.inl (List.infix_cons_iff.mpr (Or.inr h₁))
        · exact Or.inr (Or.inl h₂)
        · exact Or.inr (Or.inr ⟨m₁, m₂, rfl, hne₁, hne₂,
            hsuf.trans (List.suffix_cons x xs), hpre₂⟩)

/-- A nonempty sequence containing no digits and no hash mark cannot occur in
    `a ++ '#' :: (idc ++ b)` when `idc` is all digits, unless it occurs in `a`
    or in `b`. -/
theorem not_infix_sep {m a idc b : List Char}
    (hm : m ≠ []) (hsep : '#' ∉ m) (hdig : ∀ c ∈ m, ¬ c.isDigit = true)
    (hid : ∀ c ∈ idc, c.isDigit = true)
    (ha : ¬ m <:+: a) (hb : ¬ m <:+: b) :
    ¬ m <:+: (a ++ '#' :: (idc ++ b)) := by
  intro h
  rcases infix_append_split h with h₁ | h₂ | ⟨m₁, m₂, heq, hne₁, hne₂, _, hpre⟩
  · exact ha h₁
  · rw [List.infix_cons_iff] at h₂
    rcases h₂ with hpre | hinf
    · cases m with
      | nil => exact hm rfl
      | cons c m' =>
          rw [List.cons_prefix_cons] at hpre
          exact hsep (hpre.1 ▸ List.mem_cons_self c m')
    · rcases infix_append_split hinf with h₃ | h₄ | ⟨m₁, m₂, heq, hne₁, hne₂, hsuf, _⟩
      · cases m with
        | nil => exact hm rfl
        | cons c m' =>
            have hc : c ∈ idc := h₃.sublist.subset (List.mem_cons_self c m')
            exact hdig c (List.mem_cons_self c m') (hid c hc)
      · exact hb h₄
      · cases m₁ with
        | nil => exact hne₁ rfl
        | cons c m₁' =>
            have hc : c ∈ idc := hsuf.sublist.subset (List.mem_cons_self c m₁')
            have hcm : c ∈ m := by
              rw [heq]; exact List.mem_append_left _ (List.mem_cons_self c m₁')
            exact hdig c hcm (hid c hc)
  · cases m₂ with
    | nil => exact hne₂ rfl
    | cons c m₂' =>
        rw [List.cons_prefix_cons] at hpre
        have hcm : c ∈ m := by
          rw [heq]; exact List.mem_append_right _ (List.mem_cons_self c m₂')
        rw [hpre.1] at hcm
        exact hsep hcm

/-- Digit characters are fixed points of ASCII lowercasing. -/
theorem toLower_digit {c : Char} (h : c.isDigit = true) : Char.toLower c = c := by
  unfold Char.toLower
  simp only [Char.isDigit, Bool.and_eq_true, decide_eq_true_eq] at h
  rw [if_neg]
  rintro ⟨h1, _⟩
  obtain ⟨hd1, hd2⟩ := h
  simp only [Char.toNat] at h1
  have : c.val.toNat ≤ 57 := by exact_mod_cast hd2
  omega

theorem lookup_mem {α β : Type} [BEq α] [LawfulBEq α] {l : List (α × β)} {k : α} {v : β}
    (h : List.lookup k l = some v) : (k, v) ∈ l := by
  rw [List.lookup_eq_some_iff] at h
  obtain ⟨l₁, l₂, rfl, -⟩ := h
  simp

theorem getTemplatePieces_mem (rt st : String) : getTemplatePieces rt st ∈ templatePieces := by
  unfold getTemplatePieces
  cases h1 : RESPONSE_TEMPLATES.lookup (rt, st) with
  | some p =>
      exact List.mem_append_left _ (List.mem_map_of_mem _ (lookup_mem h1))
  | none =>
      cases h2 : RESPONSE_TEMPLATES.lookup ("general", st) with
      | some p =>
          exact List.mem_append_left _ (List.mem_map_of_mem _ (lookup_mem h2))
      | none => simp [templatePieces]

theorem allPiecesGood : templatePieces.all goodPiece = true := by decide

/-- Every interrogative marker is nonempty and free of digits and hash marks. -/
theorem markerShape :
    question_indicators.all (fun q =>
      !q.data.isEmpty && !(q.data.contains '#') && q.data.all (fun c => !c.isDigit)) = true := by
  decide

/-- C7: `validate_response` accepts only responses that contain the order id
    and are free of interrogative markers, except for the whitelisted
    templates (the missing-info prompts and the post-resolution prompt), which
    are accepted despite containing such markers (the post-resolution prompt
    even without the order id, the missing-info prompts provided the order id
    occurs in them and the order id is nonempty). -/
theorem validate_response_gate (response order_id : String) :
    (validate_response response order_id = true →
      (pyIn order_id response = true
        ∧ question_indicators.any (fun q => pyIn q (pyLower response)) = false)
      ∨ response ∈ allowed_questions)
    ∧ (response ∈ allowed_questions → order_id ≠ "" →
        (pyIn order_id response = true ∨ response = POST_RESOLUTION_RESPONSE) →
        validate_response response order_id = true) := by
  constructor
  · intro h
    unfold validate_response at h
    split_ifs at h with h1 h2 h3 h4
    · by_cases hpost : response = POST_RESOLUTION_RESPONSE
      · exact Or.inr (by simp [allowed_questions, hpost])
      · have hin : pyIn order_id response = true := by
          cases hx : pyIn order_id response
          · exact absurd (by simp [hx, bne_iff_ne, hpost]) h3
          · rfl
        cases hq : (question_indicators.any fun q => pyIn q (pyLower response))
        · exact Or.inl ⟨hin, rfl⟩
        · cases hcont : allowed_questions.contains response
          · exact absurd (by rw [hq, hcont]; rfl) h4
          · refine Or.inr ?_
            have he : List.elem response allowed_questions = true := hcont
            exact List.elem_iff.mp he
  · intro hmem hne hor
    have hrne : response ≠ "" := by
      simp only [allowed_questions, MISSING_INFO_RESPONSES, POST_RESOLUTION_RESPONSE,
        List.map, List.mem_cons, List.not_mem_nil, or_false] at hmem
      rcases hmem with rfl | rfl | rfl | rfl <;> decide
    unfold validate_response
    rw [if_neg hrne, if_neg hne]
    have h3 : ¬((!pyIn order_id response && response != POST_RESOLUTION_RESPONSE) = true) := by
      rcases hor with h | h
      · simp [h]
      · simp [h]
    rw [if_neg h3]
    have hcont : allowed_questions.contains response = true := by
      show List.elem response allowed_questions = true
      exact List.elem_iff.mpr hmem
    rw [hcont]
    simp

/-- Witness for C7: the missing-info "issue" prompt contains interrogative
    markers yet is accepted when the order id occurs in it. -/
theorem validate_response_gate_witness :
    validate_response
      "I can help with your order. Could you tell me what the issue is? (wrong item, delivery problem, or general concern)"
      "order" = true :=
  (validate_response_gate
      "I can help with your order. Could you tell me what the issue is? (wrong item, delivery problem, or general concern)"
      "order").2 (by decide) (by decide) (Or.inl (by decide))

/-- Every `get_response` result is a template piece pair wrapped around the
    order id. -/
theorem get_response_pieces (rtO stO : Option String) (id : String) :
    ∃ p ∈ templatePieces, get_response rtO stO id = p.1 ++ id ++ p.2 :=
  ⟨_, getTemplatePieces_mem _ _, rfl⟩

theorem pyIn_eq (a b : String) : pyIn a b = hasInfix a.data b.data := rfl

/-- C10: for every resolution-type string, status string and nonempty all-digit
    order id, the `get_response` result contains the order id and passes
    `validate_response`, so the validation-failure fallback of
    `resolve_complete_request` is unreachable for `get_response` outputs. -/
theorem get_response_validated (rt st id : String)
    (hne : id ≠ "") (hdig : ∀ c ∈ id.data, c.isDigit = true) :
    pyIn id (get_response (some rt) (some st) id) = true
    ∧ validate_response (get_response (some rt) (some st) id) id = true := by
  obtain ⟨p, hmem, heq⟩ := get_response_pieces (some rt) (some st) id
  have hgood : goodPiece p = true := List.all_eq_true.mp allPiecesGood p hmem
  unfold goodPiece at hgood
  simp only [Bool.and_eq_true, beq_iff_eq, List.all_eq_true, Bool.not_eq_true'] at hgood
  obtain ⟨haeq, hmarks⟩ := hgood
  have hdata : (get_response (some rt) (some st) id).data
      = p.1.data ++ (id.data ++ p.2.data) := by
    rw [heq, String.data_append, String.data_append, List.append_assoc]
  have hin : pyIn id (get_response (some rt) (some st) id) = true := by
    rw [pyIn_eq, hdata]
    exact (hasInfix_correct _ _).mpr ⟨p.1.data, p.2.data, by simp⟩
  refine ⟨hin, ?_⟩
  have hane : p.1.data ≠ [] := by
    intro hnil
    have hz : (pyLower p.1).data = [] := by simp [pyLower, hnil]
    rw [haeq] at hz
    simp at hz
  have hrne : get_response (some rt) (some st) id ≠ "" := by
    intro he
    have hz : (get_response (some rt) (some st) id).data = [] := by rw [he]
    rw [hdata] at hz
    exact hane (List.append_eq_nil.mp hz).1
  have hidmap : id.data.map Char.toLower = id.data := by
    calc id.data.map Char.toLower
        = id.data.map (fun c => c) := List.map_congr_left (fun c hc => toLower_digit (hdig c hc))
      _ = id.data := by simp
  have hlowdata : (pyLower (get_response (some rt) (some st) id)).data
      = (pyLower p.1).data.dropLast ++ '#' :: (id.data ++ (pyLower p.2).data) := by
    show (get_response (some rt) (some st) id).data.map Char.toLower
        = (pyLower p.1).data.dropLast ++ '#' :: (id.data ++ (pyLower p.2).data)
    rw [hdata, List.map_append, List.map_append, hidmap]
    have h1 : p.1.data.map Char.toLower = (pyLower p.1).data := rfl
    have h2 : p.2.data.map Char.toLower = (pyLower p.2).data := rfl
    rw [h1, h2, haeq]
    simp
  have hnoq : (question_indicators.any fun q =>
      pyIn q (pyLower (get_response (some rt) (some st) id))) = false := by
    rw [List.any_eq_false]
    intro q hq
    have hshape := List.all_eq_true.mp markerShape q hq
    simp only [Bool.and_eq_true, Bool.not_eq_true', List.all_eq_true] at hshape
    obtain ⟨⟨hqne, hqhash⟩, hqdig⟩ := hshape
    have hmq := hmarks q hq
    simp only [Bool.and_eq_true, Bool.not_eq_true'] at hmq
    intro hcontra
    rw [pyIn_eq, hlowdata] at hcontra
    have hinf := (hasInfix_correct _ _).mp hcontra
    refine not_infix_sep ?_ ?_ ?_ hdig ?_ ?_ hinf
    · intro hq0
      rw [hq0] at hqne
      exact Bool.noConfusion hqne
    · intro hmem0
      have he : List.elem '#' q.data = true := List.elem_iff.mpr hmem0
      have : q.data.contains '#' = true := he
      rw [hqhash] at this
      exact Bool.noConfusion this
    · intro c hc hcd
      have := hqdig c hc
      rw [hcd] at this
      exact Bool.noConfusion this
    · intro hbad
      have := (hasInfix_correct _ _).mpr hbad
      rw [hmq.1] at this
      exact Bool.noConfusion this
    · intro hbad
      have := (hasInfix_correct _ _).mpr hbad
      rw [hmq.2] at this
      exact Bool.noConfusion this
  unfold validate_response
  rw [if_neg hrne, if_neg hne]
  have h3 : ¬((!pyIn id (get_response (some rt) (some st) id)
      && get_response (some rt) (some st) id != POST_RESOLUTION_RESPONSE) = true) := by
    simp [hin]
  rw [if_neg h3]
  rw [hnoq]
  simp

/-- Witness for C10 at the (refund, shipped) template and order id 12345. -/
theorem get_response_validated_witness :
    pyIn "12345" (get_response (some "refund") (some "shipped") "12345") = true
    ∧ validate_response (get_response (some "refund") (some "shipped") "12345") "12345" = true :=
  get_response_validated "refund" "shipped" "12345" (by decide) (by decide)

/-- C5 counterexample: the message contains the order-detail keyword "price"
    and the billing keyword "charged", yet `_detect_intent` returns
    CUSTOMER_LOOKUP (the word "customer" matches the higher-priority
    customer-lookup keyword list), not ORDER_DETAIL_QUERY. -/
theorem detect_intent_priority_counterexample :
    (ORDER_DETAIL_KEYWORDS.any fun k => pyIn k (pyLower "customer was charged the wrong price")) = true
    ∧ (BILLING_ISSUE_KEYWORDS.any fun k => pyIn k (pyLower "customer was charged the wrong price")) = true
    ∧ detect_intent "customer was charged the wrong price" = Intent.customer_lookup
    ∧ detect_intent "customer was charged the wrong price" ≠ Intent.order_detail_query := by
  decide

/-- C5 (amended): for every message containing at least one order-detail
    keyword and at least one billing keyword and no customer-lookup keyword,
    `_detect_intent` returns ORDER_DETAIL_QUERY. -/
theorem detect_intent_priority (message : String)
    (hnc : (CUSTOMER_LOOKUP_KEYWORDS.any fun k => pyIn k (pyLower message)) = false)
    (hod : (ORDER_DETAIL_KEYWORDS.any fun k => pyIn k (pyLower message)) = true)
    (_hbill : (BILLING_ISSUE_KEYWORDS.any fun k => pyIn k (pyLower message)) = true) :
    detect_intent message = Intent.order_detail_query := by
  simp [detect_intent, hnc, hod]

/-- Witness for C5 (amended) at the spec's own example sentence. -/
theorem detect_intent_priority_witness :
    detect_intent "what was the price i was charged" = Intent.order_detail_query :=
  detect_intent_priority "what was the price i was charged" (by decide) (by decide) (by decide)

/-- C9 counterexample: the message "0" contains a digit, and
    `_extract_order_id` extracts the integer 0, but Python `if order_id:`
    treats 0 as falsy, so slot filling neither stores the id nor clears the
    pending slot — it re-asks instead. -/
theorem slot_fill_zero_counterexample :
    extract_order_id "0" = some 0
    ∧ (process_message ⟨fun _ => none, fun _ => none, fun _ => none⟩ "0"
        ⟨some Intent.billing_issue, some "order_id", none, none, false⟩
        ⟨none⟩).state.pending_slot = some "order_id"
    ∧ (process_message ⟨fun _ => none, fun _ => none, fun _ => none⟩ "0"
        ⟨some Intent.billing_issue, some "order_id", none, none, false⟩
        ⟨none⟩).state.ctx_order_id = none
    ∧ (process_message ⟨fun _ => none, fun _ => none, fun _ => none⟩ "0"
        ⟨some Intent.billing_issue, some "order_id", none, none, false⟩
        ⟨none⟩).response
      = "I need your order number to help you. Please provide your order number (e.g., 45, ORD45, or #45)." := by
  decide

/-- C9 (amended): while `pending_slot = order_id`, a message whose first
    maximal digit run has a nonzero integer value n fills the order-id slot
    with n, clears the pending slot (and records n in the persistent
    entities), and the workflow continues from exactly that filled state. -/
theorem slot_fill_nonzero (o : DSMOracles) (message : String)
    (st : DialogueState) (sess : DSMSession) (n : Nat)
    (hp : st.pending_slot = some "order_id")
    (hx : extract_order_id message = some n) (hnz : n ≠ 0) :
    handle_slot_filling o message st sess
      = route_workflow o message
          { st with ctx_order_id := some n, pending_slot := none }
          { sess with persistent_order_number := some (toString n) } := by
  unfold handle_slot_filling
  rw [hp, hx]
  simp [hnz]

/-- Witness for C9 (amended): scenario 2, bare input "45" while the billing
    workflow waits for the order id. -/
theorem slot_fill_nonzero_witness :
    handle_slot_filling ⟨fun _ => none, fun _ => none, fun _ => none⟩ "45"
        ⟨some Intent.billing_issue, some "order_id", none, none, false⟩ ⟨none⟩
      = route_workflow ⟨fun _ => none, fun _ => none, fun _ => none⟩ "45"
          ⟨some Intent.billing_issue, none, some 45, none, false⟩ ⟨some (toString 45)⟩
    ∧ extract_order_id "45" = some 45 :=
  ⟨slot_fill_nonzero ⟨fun _ => none, fun _ => none, fun _ => none⟩ "45"
      ⟨some Intent.billing_issue, some "order_id", none, none, false⟩ ⟨none⟩ 45
      rfl (by decide) (by decide),
    by decide⟩

/-- A message without digits yields no order id
    (`re.search(r'(\d+)')` finds nothing). -/
theorem extract_order_id_eq_none {message : String}
    (h : ∀ c ∈ message.data, c.isDigit = false) : extract_order_id message = none := by
  unfold extract_order_id firstDigitRun
  have hd : message.data.dropWhile (fun c => !c.isDigit) = [] := by
    rw [List.dropWhile_eq_nil_iff]
    intro c hc
    simp [h c hc]
  rw [hd]
  rfl

/-- C3: with `active_intent = BILLING_ISSUE` and `pending_slot = order_id`, a
    digit-free message changes nothing at all, and a well-formed (nonzero)
    order id whose repository lookup misses discards only the invalid
    order-id value (context and persistent entities), re-requests the same
    slot and preserves the active intent. -/
theorem billing_no_reset_on_failure (o : DSMOracles) (message : String)
    (st : DialogueState) (sess : DSMSession) :
    (st.active_intent = some Intent.billing_issue →
      st.pending_slot = some "order_id" →
      (∀ c ∈ message.data, c.isDigit = false) →
      (process_message o message st sess).state = st
      ∧ (process_message o message st sess).session = sess)
    ∧ (∀ n : Nat, st.active_intent = some Intent.billing_issue →
        st.pending_slot = some "order_id" →
        extract_order_id message = some n → n ≠ 0 →
        o.get_order_by_id n = none →
        (process_message o message st sess).state.active_intent = some Intent.billing_issue
        ∧ (process_message o message st sess).state.pending_slot = some "order_id"
        ∧ (process_message o message st sess).state.ctx_order_id = none
        ∧ (process_message o message st sess).state.ctx_customer_id = st.ctx_customer_id
        ∧ (process_message o message st sess).session.persistent_order_number = none) := by
  constructor
  · intro hint hp hnod
    have hpend : st.pending_slot.isSome = true := by rw [hp]; rfl
    unfold process_message
    rw [if_pos hpend]
    unfold handle_slot_filling
    rw [hp, extract_order_id_eq_none hnod]
    simp
  · intro n hint hp hx hnz hlook
    have hpend : st.pending_slot.isSome = true := by rw [hp]; rfl
    have hsf := slot_fill_nonzero o message st sess n hp hx hnz
    have hproc : process_message o message st sess
        = route_workflow o message
            { st with ctx_order_id := some n, pending_slot := none }
            { sess with persistent_order_number := some (toString n) } := by
      unfold process_message
      rw [if_pos hpend]
      exact hsf
    obtain ⟨ai, ps, co, cc, wc⟩ := st
    obtain ⟨po⟩ := sess
    simp only [] at hint
    rw [hproc]
    simp only [route_workflow, hint, handle_billing_workflow, hnz]
    simp [billing_body, hlook, hnz]

/-- Witness for C3: part one at the digit-free message "abc", part two at the
    message "45" with an always-missing repository. -/
theorem billing_no_reset_on_failure_witness :
    ((process_message ⟨fun _ => none, fun _ => none, fun _ => none⟩ "abc"
        ⟨some Intent.billing_issue, some "order_id", none, none, false⟩ ⟨none⟩).state
      = ⟨some Intent.billing_issue, some "order_id", none, none, false⟩)
    ∧ (process_message ⟨fun _ => none, fun _ => none, fun _ => none⟩ "45"
        ⟨some Intent.billing_issue, some "order_id", none, none, false⟩ ⟨none⟩).state.pending_slot
      = some "order_id"
    ∧ (process_message ⟨fun _ => none, fun _ => none, fun _ => none⟩ "45"
        ⟨some Intent.billing_issue, some "order_id", none, none, false⟩ ⟨none⟩).state.active_intent
      = some Intent.billing_issue :=
  ⟨((billing_no_reset_on_failure ⟨fun _ => none, fun _ => none, fun _ => none⟩ "abc"
      ⟨some Intent.billing_issue, some "order_id", none, none, false⟩ ⟨none⟩).1
      rfl rfl (by decide)).1,
    ((billing_no_reset_on_failure ⟨fun _ => none, fun _ => none, fun _ => none⟩ "45"
      ⟨some Intent.billing_issue, some "order_id", none, none, false⟩ ⟨none⟩).2
      45 rfl rfl (by decide) (by decide) rfl).2.1,
    ((billing_no_reset_on_failure ⟨fun _ => none, fun _ => none, fun _ => none⟩ "45"
      ⟨some Intent.billing_issue, some "order_id", none, none, false⟩ ⟨none⟩).2
      45 rfl rfl (by decide) (by decide) rfl).1⟩

/-- Every branch of the customer-lookup workflow either keeps the active
    intent or leaves no pending slot. -/
theorem customer_lookup_keeps_intent (o : DSMOracles) (message : String)
    (st : DialogueState) (sess : DSMSession) :
    (handle_customer_lookup_workflow o message st sess).state.active_intent = st.active_intent
    ∨ (handle_customer_lookup_workflow o message st sess).state.pending_slot = none := by
  obtain ⟨ai, ps, co, cc, wc⟩ := st
  unfold handle_customer_lookup_workflow customer_lookup_body
  repeat' split
  all_goals simp [DialogueState.reset]

/-- Every branch of the order-detail workflow either keeps the active intent
    or leaves no pending slot. -/
theorem order_detail_keeps_intent (o : DSMOracles) (message : String)
    (st : DialogueState) (sess : DSMSession) :
    (handle_order_detail_workflow o message st sess).state.active_intent = st.active_intent
    ∨ (handle_order_detail_workflow o message st sess).state.pending_slot = none := by
  obtain ⟨ai, ps, co, cc, wc⟩ := st
  unfold handle_order_detail_workflow order_detail_body
  repeat' split
  all_goals simp [DialogueState.reset]

/-- No branch of the billing workflow ever changes the active intent. -/
theorem billing_keeps_intent (o : DSMOracles) (message : String)
    (st : DialogueState) (sess : DSMSession) :
    (handle_billing_workflow o message st sess).state.active_intent = st.active_intent := by
  obtain ⟨ai, ps, co, cc, wc⟩ := st
  unfold handle_billing_workflow billing_extract_branch billing_body billingAsk
  repeat' split
  all_goals rfl

/-- Every branch of the return workflow either keeps the active intent or
    leaves no pending slot. -/
theorem return_keeps_intent (o : DSMOracles) (message : String)
    (st : DialogueState) (sess : DSMSession) :
    (handle_return_workflow o message st sess).state.active_intent = st.active_intent
    ∨ (handle_return_workflow o message st sess).state.pending_slot = none := by
  obtain ⟨ai, ps, co, cc, wc⟩ := st
  unfold handle_return_workflow return_body
  repeat' split
  all_goals simp [DialogueState.reset]

/-- Every branch of the status workflow either keeps the active intent or
    leaves no pending slot. -/
theorem status_keeps_intent (o : DSMOracles) (message : String)
    (st : DialogueState) (sess : DSMSession) :
    (handle_status_workflow o message st sess).state.active_intent = st.active_intent
    ∨ (handle_status_workflow o message st sess).state.pending_slot = none := by
  obtain ⟨ai, ps, co, cc, wc⟩ := st
  unfold handle_status_workflow status_body
  repeat' split
  all_goals simp [DialogueState.reset]

/-- Every branch of the FAQ workflow resets the state, so no pending slot
    survives it. -/
theorem faq_no_pending (o : DSMOracles) (message : String)
    (st : DialogueState) (sess : DSMSession) :
    (handle_faq_workflow o message st sess).state.pending_slot = none := by
  unfold handle_faq_workflow
  simp [DialogueState.reset]

/-- A routed workflow that leaves a pending slot has kept the caller's active
    intent. -/
theorem route_workflow_keeps_intent (o : DSMOracles) (message : String)
    (st : DialogueState) (sess : DSMSession)
    (h : (route_workflow o message st sess).state.pending_slot.isSome = true) :
    (route_workflow o message st sess).state.active_intent = st.active_intent := by
  cases hai : st.active_intent with
  | none =>
      have hr : route_workflow o message st sess = handle_faq_workflow o message st sess := by
        unfold route_workflow; rw [hai]
      rw [hr, faq_no_pending] at h
      exact Bool.noConfusion h
  | some i =>
      cases i
      case customer_lookup =>
        have hr : route_workflow o message st sess
            = handle_customer_lookup_workflow o message st sess := by
          unfold route_workflow; rw [hai]
        rw [hr] at h ⊢
        rcases customer_lookup_keeps_intent o message st sess with hk | hnone
        · exact hk.trans hai
        · rw [hnone] at h; exact Bool.noConfusion h
      case order_detail_query =>
        have hr : route_workflow o message st sess
            = handle_order_detail_workflow o message st sess := by
          unfold route_workflow; rw [hai]
        rw [hr] at h ⊢
        rcases order_detail_keeps_intent o message st sess with hk | hnone
        · exact hk.trans hai
        · rw [hnone] at h; exact Bool.noConfusion h
      case billing_issue =>
        have hr : route_workflow o message st sess
            = handle_billing_workflow o message st sess := by
          unfold route_workflow; rw [hai]
        rw [hr]
        exact (billing_keeps_intent o message st sess).trans hai
      case return_order =>
        have hr : route_workflow o message st sess
            = handle_return_workflow o message st sess := by
          unfold route_workflow; rw [hai]
        rw [hr] at h ⊢
        rcases return_keeps_intent o message st sess with hk | hnone
        · exact hk.trans hai
        · rw [hnone] at h; exact Bool.noConfusion h
      case order_status =>
        have hr : route_workflow o message st sess
            = handle_status_workflow o message st sess := by
          unfold route_workflow; rw [hai]
        rw [hr] at h ⊢
        rcases status_keeps_intent o message st sess with hk | hnone
        · exact hk.trans hai
        · rw [hnone] at h; exact Bool.noConfusion h
      case faq =>
        have hr : route_workflow o message st sess = handle_faq_workflow o message st sess := by
          unfold route_workflow; rw [hai]
        rw [hr, faq_no_pending] at h
        exact Bool.noConfusion h

/-- One `process_message` call preserves the invariant "a pending slot implies
    a locked intent". -/
theorem process_message_preserves_inv (o : DSMOracles) (message : String)
    (st : DialogueState) (sess : DSMSession)
    (h : st.pending_slot.isSome = true → st.active_intent.isSome = true) :
    (process_message o message st sess).state.pending_slot.isSome = true →
    (process_message o message st sess).state.active_intent.isSome = true := by
  intro hpend
  by_cases hp : st.pending_slot.isSome = true
  · have hproc : process_message o message st sess = handle_slot_filling o message st sess := by
      unfold process_message
      rw [if_pos hp]
    rw [hproc] at hpend ⊢
    have hint : st.active_intent.isSome = true := h hp
    unfold handle_slot_filling at hpend ⊢
    split_ifs at hpend ⊢ with h1 h2
    · cases hx : extract_order_id message with
      | none => simp only [hx] at hpend ⊢; exact hint
      | some n =>
          simp only [hx] at hpend ⊢
          by_cases hz : n = 0
          · simp only [hz, if_pos rfl] at hpend ⊢; exact hint
          · rw [if_neg hz] at hpend ⊢
            have hkeep := route_workflow_keeps_intent o message
              { st with ctx_order_id := some n, pending_slot := none }
              { sess with persistent_order_number := some (toString n) } hpend
            rw [hkeep]
            exact hint
    · cases hx : extract_customer_id message with
      | none => simp only [hx] at hpend ⊢; exact hint
      | some cid =>
          simp only [hx] at hpend ⊢
          have hkeep := route_workflow_keeps_intent o message
            { st with ctx_customer_id := some cid, pending_slot := none } sess hpend
          rw [hkeep]
          exact hint
    · exact hint
  · have hproc : process_message o message st sess
        = route_workflow o message
            (match st.active_intent with
              | none => { st with active_intent := some (detect_intent message) }
              | some _ => st) sess := by
      unfold process_message
      rw [if_neg hp]
      cases hai : st.active_intent with
      | none => rfl
      | some i => simp only [hai]
    cases hai : st.active_intent with
    | none =>
        rw [hai] at hproc
        rw [hproc] at hpend ⊢
        have hkeep := route_workflow_keeps_intent o message
          { st with active_intent := some (detect_intent message) } sess hpend
        rw [hkeep]
        rfl
    | some i =>
        rw [hai] at hproc
        rw [hproc] at hpend ⊢
        have hkeep := route_workflow_keeps_intent o message st sess hpend
        rw [hkeep, hai]
        rfl

/-- C4: in every dialogue state reachable from the initial `DialogueState` by
    any sequence of `process_message` calls (with any collaborators), a set
    `pending_slot` implies a set `active_intent`. -/
theorem pending_slot_requires_intent (o : DSMOracles) (msgs : List String) :
    (runDSM o msgs (⟨none, none, none, none, false⟩, ⟨none⟩)).1.pending_slot.isSome = true →
    (runDSM o msgs (⟨none, none, none, none, false⟩, ⟨none⟩)).1.active_intent.isSome = true := by
  have main : ∀ (p : DialogueState × DSMSession),
      (p.1.pending_slot.isSome = true → p.1.active_intent.isSome = true) →
      ((runDSM o msgs p).1.pending_slot.isSome = true →
        (runDSM o msgs p).1.active_intent.isSome = true) := by
    induction msgs with
    | nil => intro p h; simpa [runDSM] using h
    | cons m ms ih =>
        intro p h
        have hstep : runDSM o (m :: ms) p
            = runDSM o ms
                ((process_message o m p.1 p.2).state, (process_message o m p.1 p.2).session) := by
          simp [runDSM]
        rw [hstep]
        exact ih _ (process_message_preserves_inv o m p.1 p.2 h)
  exact main _ (by intro habs; exact Bool.noConfusion habs)

/-- Witness for C4: after the message "billing problem" the billing workflow
    waits for the order-id slot, and the invariant indeed yields a locked
    intent. -/
theorem pending_slot_requires_intent_witness :
    (runDSM ⟨fun _ => none, fun _ => none, fun _ => none⟩ ["billing problem"]
      (⟨none, none, none, none, false⟩, ⟨none⟩)).1.active_intent.isSome = true :=
  pending_slot_requires_intent ⟨fun _ => none, fun _ => none, fun _ => none⟩
    ["billing problem"] (by decide)

/-- C2: once a session's `resolved` flag is true, `process_with_context` (also
    when reached through `process_human_conversation`) returns exactly the
    post-resolution template, for every input message and collaborators. -/
theorem post_resolution_gate (collab : RouterCollab) (message : String)
    (s : SessionMemory) (h : s.resolved = true) :
    (process_with_context collab message s).1.response = POST_RESOLUTION_RESPONSE
    ∧ (process_human_conversation collab message s).1.response = POST_RESOLUTION_RESPONSE := by
  constructor
  · unfold process_with_context
    rw [if_pos (show s.is_resolved = true from h)]
    rfl
  · unfold process_human_conversation
    rw [if_pos h]
    rfl

/-- Witness for C2 at a concrete resolved session. -/
theorem post_resolution_gate_witness :
    (process_with_context
        ⟨fun _ _ => false, fun _ => "", fun _ s => (handle_post_resolution, s)⟩
        "can I still get a refund?"
        ⟨true, [], [], none, none, none, none, none⟩).1.response
      = POST_RESOLUTION_RESPONSE :=
  (post_resolution_gate
    ⟨fun _ _ => false, fun _ => "", fun _ s => (handle_post_resolution, s)⟩
    "can I still get a refund?"
    ⟨true, [], [], none, none, none, none, none⟩ rfl).1

/-- `finalize_complete_request` passes the order id through unchanged. -/
theorem finalize_order_id (oid iss res : Option String) :
    (finalize_complete_request oid iss res).order_id = oid := by
  unfold finalize_complete_request
  split_ifs <;> rfl

/-- `finalize_complete_request` passes the resolution through unchanged. -/
theorem finalize_resolution (oid iss res : Option String) :
    (finalize_complete_request oid iss res).resolution = res := by
  unfold finalize_complete_request
  split_ifs <;> rfl

theorem tryPattern_valid {f : List Char → Option (List Char)} {cs : List Char}
    {fb : Option String} {s : String} (h : tryPattern f cs fb = some s) :
    validateOrderToken s.data = true ∨ fb = some s := by
  unfold tryPattern at h
  split at h
  · split_ifs at h with hv
    · injection h with h'
      subst h'
      exact Or.inl hv
    · exact Or.inr h
  · exact Or.inr h

theorem validateOrderToken_ne_nil {tok : List Char}
    (h : validateOrderToken tok = true) : tok ≠ [] := by
  intro hnil
  subst hnil
  exact absurd h (by decide)

/-- An extracted order id is never the empty string, so Python truthiness of
    the extraction result is just presence. -/
theorem orderIdFromPatterns_truthy (m : String) :
    truthyOpt (orderIdFromPatterns m) = (orderIdFromPatterns m).isSome := by
  cases h : orderIdFromPatterns m with
  | none => rfl
  | some s =>
      have hv : validateOrderToken s.data = true := by
        unfold orderIdFromPatterns at h
        rcases tryPattern_valid h with h1 | h1
        · exact h1
        rcases tryPattern_valid h1 with h2 | h2
        · exact h2
        rcases tryPattern_valid h2 with h3 | h3
        · exact h3
        rcases tryPattern_valid h3 with h4 | h4
        · exact h4
        · exact absurd h4 (by simp)
      have hne : s ≠ "" := by
        intro he
        subst he
        exact validateOrderToken_ne_nil hv rfl
      simp [truthyOpt, hne]

/-- The detected issue is one of the nonempty literals or absent. -/
theorem nlpIssue_truthy (m : String) :
    truthyOpt (nlpIssue m) = (nlpIssue m).isSome := by
  unfold nlpIssue
  split_ifs <;> rfl

/-- The detected resolution is refund, replacement, cancel or absent — all
    nonempty, never "tracking". -/
theorem nlpResolution_shape (m : String) :
    truthyOpt (nlpResolution m) = (nlpResolution m).isSome
    ∧ nlpResolution m ≠ some "tracking" := by
  unfold nlpResolution
  split_ifs <;> exact ⟨rfl, by decide⟩

/-- The completeness decision characterised: given that the three fields obey
    Python truthiness = presence and the resolution is never the reserved
    "tracking" value (facts established about the actual detectors above),
    `is_complete` holds exactly when an order id is present and the resolution
    is refund/replacement (with the issue then present, stated or inferred) or
    cancel. -/
theorem finalize_iff (oid iss res : Option String)
    (h1 : truthyOpt oid = oid.isSome) (h2 : truthyOpt iss = iss.isSome)
    (h4 : res ≠ some "tracking") :
    (finalize_complete_request oid iss res).is_complete = true ↔
      ((finalize_complete_request oid iss res).order_id.isSome = true
        ∧ ((((finalize_complete_request oid iss res).resolution = some "refund"
              ∨ (finalize_complete_request oid iss res).resolution = some "replacement")
            ∧ (finalize_complete_request oid iss res).issue.isSome = true)
          ∨ (finalize_complete_request oid iss res).resolution = some "cancel"
          ∨ ((finalize_complete_request oid iss res).resolution = some "tracking"
              ∧ (finalize_complete_request oid iss res).order_id.isSome = true))) := by
  rcases Decidable.em (res = some "refund" ∨ res = some "replacement") with hr | hr
  · have hoidne : ∀ a : String, oid = some a → a ≠ "" := by
      intro a ha he
      rw [ha, he] at h1
      exact absurd h1 (by decide)
    have hissne : ∀ b : String, iss = some b → b ≠ "" := by
      intro b hb he
      rw [hb, he] at h2
      exact absurd h2 (by decide)
    rcases hr with rfl | rfl
    · unfold finalize_complete_request
      rw [if_pos (Or.inl rfl)]
      cases oid with
      | none => simp [truthyOpt]
      | some a =>
          have ha := hoidne a rfl
          cases iss with
          | none => simp [truthyOpt, ha]
          | some b =>
              have hb := hissne b rfl
              simp [truthyOpt, ha, hb]
    · unfold finalize_complete_request
      rw [if_pos (Or.inr rfl)]
      cases oid with
      | none => simp [truthyOpt]
      | some a =>
          have ha := hoidne a rfl
          cases iss with
          | none => simp [truthyOpt, ha]
          | some b =>
              have hb := hissne b rfl
              simp [truthyOpt, ha, hb]
  · by_cases hc : res = some "cancel"
    · subst hc
      unfold finalize_complete_request
      rw [if_neg hr, if_pos rfl]
      have hoidne : ∀ a : String, oid = some a → a ≠ "" := by
        intro a ha he
        rw [ha, he] at h1
        exact absurd h1 (by decide)
      cases oid with
      | none => simp [truthyOpt]
      | some a =>
          have ha := hoidne a rfl
          simp [truthyOpt, ha]
    · unfold finalize_complete_request
      rw [if_neg hr, if_neg hc]
      simp only [not_or] at hr
      obtain ⟨hr1, hr2⟩ := hr
      simp [hr1, hr2, hc, h4]

theorem nonTracking_iff (m : String) :
    (nonTrackingRequest m).is_complete = true ↔
      ((nonTrackingRequest m).order_id.isSome = true
        ∧ ((((nonTrackingRequest m).resolution = some "refund"
              ∨ (nonTrackingRequest m).resolution = some "replacement")
            ∧ (nonTrackingRequest m).issue.isSome = true)
          ∨ (nonTrackingRequest m).resolution = some "cancel"
          ∨ ((nonTrackingRequest m).resolution = some "tracking"
              ∧ (nonTrackingRequest m).order_id.isSome = true))) := by
  unfold nonTrackingRequest
  split_ifs with hs
  · simp
  · exact finalize_iff (orderIdFromPatterns m) (nlpIssue m) (nlpResolution m)
      (orderIdFromPatterns_truthy m) (nlpIssue_truthy m) (nlpResolution_shape m).2

/-- C6: `detect_complete_request` reports `is_complete` exactly when an order
    id is present and the resolution is refund/replacement with a stated or
    inferred issue, or cancel, or tracking (which carries its order id by
    construction); and on scenario 1 ("Order 12345 got wrong item, want
    refund") against a fresh session the request is complete and the
    resulting router response contains "12345" and no question mark. -/
theorem complete_request_rule :
    (∀ m : String,
      (detect_complete_request m).is_complete = true ↔
        ((detect_complete_request m).order_id.isSome = true
          ∧ ((((detect_complete_request m).resolution = some "refund"
                ∨ (detect_complete_request m).resolution = some "replacement")
              ∧ (detect_complete_request m).issue.isSome = true)
            ∨ (detect_complete_request m).resolution = some "cancel"
            ∨ ((detect_complete_request m).resolution = some "tracking"
                ∧ (detect_complete_request m).order_id.isSome = true))))
    ∧ (∀ collab : RouterCollab,
        collab.is_follow_up freshSession SCENARIO_ONE = false →
        (detect_complete_request SCENARIO_ONE).is_complete = true
        ∧ pyIn "12345" (process_with_context collab SCENARIO_ONE freshSession).1.response = true
        ∧ pyIn "?" (process_with_context collab SCENARIO_ONE freshSession).1.response = false) := by
  constructor
  · intro m
    unfold detect_complete_request
    split_ifs with ht
    · cases ho : orderIdFromPatterns m with
      | some oid => simp
      | none => exact nonTracking_iff m
    · exact nonTracking_iff m
  · intro collab hf
    have hresp : (process_with_context collab SCENARIO_ONE freshSession).1.response
        = "I'm sorry for the inconvenience. I've successfully initiated a refund for order #12345. The amount will be credited within 3–5 business days." := by
      unfold process_with_context
      rw [hf]
      rfl
    refine ⟨by decide, ?_, ?_⟩
    · rw [hresp]
      decide
    · rw [hresp]
      decide

/-- Witness for C6: scenario 1 evaluated with concrete collaborators. -/
theorem complete_request_rule_witness :
    (detect_complete_request SCENARIO_ONE).is_complete = true
    ∧ pyIn "12345"
        (process_with_context
          ⟨fun _ _ => false, fun _ => "", fun _ s => (handle_post_resolution, s)⟩
          SCENARIO_ONE freshSession).1.response = true
    ∧ pyIn "?"
        (process_with_context
          ⟨fun _ _ => false, fun _ => "", fun _ s => (handle_post_resolution, s)⟩
          SCENARIO_ONE freshSession).1.response = false :=
  complete_request_rule.2
    ⟨fun _ _ => false, fun _ => "", fun _ s => (handle_post_resolution, s)⟩ rfl

/-- Updating one key of an association list through `List.map` is observed by
    `List.lookup` as mapping the looked-up value. -/
theorem lookup_map_update (k : String) (f : OrderState → OrderState)
    (l : List (String × OrderState)) :
    List.lookup k (l.map (fun p => if p.1 = k then (p.1, f p.2) else p))
      = (List.lookup k l).map f := by
  induction l with
  | nil => rfl
  | cons a t ih =>
      obtain ⟨a1, a2⟩ := a
      simp only [List.map]
      by_cases h : a1 = k
      · subst h
        rw [if_pos rfl]
        simp [List.lookup, ih]
      · rw [if_neg h]
        have hb : (k == a1) = false := by
          simp [Ne.symm h]
        simp [List.lookup, hb, ih]

/-- What `transition_order_status` does to the transitioned order, observed
    through `lookup`. -/
theorem transition_lookup (s : SessionMemory) (k : String) (target : OrderStatus)
    (tn eta : Option String) :
    (s.transition_order_status k target tn eta).order_states.lookup k
      = (s.order_states.lookup k).map (fun st =>
          if (st.transition_to target).1 then
            match tn with
            | some t => (st.transition_to target).2.update_tracking t eta
            | none => (st.transition_to target).2
          else (st.transition_to target).2) := by
  unfold SessionMemory.transition_order_status
  exact lookup_map_update k
    (fun st =>
      if (st.transition_to target).1 then
        match tn with
        | some t => (st.transition_to target).2.update_tracking t eta
        | none => (st.transition_to target).2
      else (st.transition_to target).2)
    s.order_states

/-- String concatenation is associative (via the underlying character lists). -/
theorem str_append_assoc (a b c : String) : (a ++ b) ++ c = a ++ (b ++ c) := by
  apply congrArg String.mk
  show ((a ++ b).data) ++ c.data = a.data ++ (b ++ c).data
  rw [String.data_append, String.data_append, List.append_assoc]

/-- When the gates are passed and the detector fired the tracking
    short-circuit, `process_with_context` runs exactly the tracking branch. -/
theorem process_with_context_tracking (collab : RouterCollab) (message : String)
    (s : SessionMemory) (id : String)
    (h1 : s.resolved = false)
    (h2 : collab.is_follow_up s message = false)
    (hd : detect_complete_request message
      = ⟨some id, some "tracking", some "tracking", true, true⟩)
    (hid : id ≠ "") :
    process_with_context collab message s = trackingBranch message s id := by
  unfold process_with_context
  rw [if_neg (show ¬(s.is_resolved = true) by
    simp [SessionMemory.is_resolved, h1])]
  rw [if_neg (show ¬(collab.is_follow_up s message = true) by simp [h2])]
  rw [hd]
  rw [if_pos (show ((⟨some id, some "tracking", some "tracking", true, true⟩ :
      CompleteRequest).is_tracking
      && truthyOpt (⟨some id, some "tracking", some "tracking", true, true⟩ :
        CompleteRequest).order_id) = true by
    simp [truthyOpt, hid])]
  rfl

theorem transition_to_unknown_processing (st0 : OrderState)
    (h : st0.status = OrderStatus.unknown) :
    st0.transition_to OrderStatus.processing
      = (true, { st0 with status := OrderStatus.processing }) := by
  unfold OrderState.transition_to
  rw [h]
  rfl

theorem transition_to_processing_shipped (st0 : OrderState)
    (h : st0.status = OrderStatus.processing) :
    st0.transition_to OrderStatus.shipped
      = (true, { st0 with status := OrderStatus.shipped }) := by
  unfold OrderState.transition_to
  rw [h]
  rfl

/-- The canonical tracking template for a shipped order with the default eta. -/
theorem canonical_shipped_tomorrow (oid idf : String) (tn : Option String) :
    get_canonical_tracking_response oid
        (some ⟨idf, OrderStatus.shipped, some "tomorrow", tn⟩)
      = "Order #" ++ oid ++ " has been shipped and is on the way. You should receive it by tomorrow." := by
  unfold get_canonical_tracking_response
  simp only [OrderStatus.value]
  rw [if_neg (by decide), if_pos (by decide)]
  rw [if_neg (by decide : ¬("tomorrow" : String) = "")]
  simp only [String.append_assoc]
  rfl

/-- Evaluation of the tracking branch over an order that is absent or still
    UNKNOWN: two table-respecting transitions end at SHIPPED with the default
    eta, and the canonical shipped-with-eta template is returned. -/
theorem trackingBranch_unknown (message : String) (s : SessionMemory) (id : String)
    (hst : s.order_states.lookup id = none
        ∨ ∃ st0, s.order_states.lookup id = some st0 ∧ st0.status = OrderStatus.unknown) :
    (trackingBranch message s id).1.response
      = "Order #" ++ id ++ " has been shipped and is on the way. You should receive it by tomorrow."
    ∧ ((trackingBranch message s id).2.order_states.lookup id).map OrderState.status
      = some OrderStatus.shipped
    ∧ ((trackingBranch message s id).2.order_states.lookup id).map OrderState.delivery_eta
      = some (some "tomorrow")
    ∧ (trackingBranch message s id).1.issue_context.no_resolution_prompt = true := by
  rcases hst with hnone | ⟨st0, hsome, hst0⟩
  · have hgc : s.get_or_create_order_state id
        = (OrderState.init id,
           { s with order_states := (id, OrderState.init id) :: s.order_states }) := by
      unfold SessionMemory.get_or_create_order_state
      rw [hnone]
    have hl0 : ({ s with order_states := (id, OrderState.init id) :: s.order_states }
        : SessionMemory).order_states.lookup id = some (OrderState.init id) := by
      simp [List.lookup]
    have hl1 : ((({ s with order_states := (id, OrderState.init id) :: s.order_states }
          : SessionMemory).transition_order_status id OrderStatus.processing
          none none).order_states.lookup id)
        = some ⟨id, OrderStatus.processing, none, none⟩ := by
      rw [transition_lookup, hl0, Option.map_some']
      simp only [OrderState.init]
      rw [transition_to_unknown_processing ⟨id, OrderStatus.unknown, none, none⟩ rfl]
      rfl
    have hl2 : (((({ s with order_states := (id, OrderState.init id) :: s.order_states }
          : SessionMemory).transition_order_status id OrderStatus.processing
          none none).transition_order_status id OrderStatus.shipped
          (some ("TRK" ++ id ++ "789")) (some "tomorrow")).order_states.lookup id)
        = some ⟨id, OrderStatus.shipped, some "tomorrow", some ("TRK" ++ id ++ "789")⟩ := by
      rw [transition_lookup, hl1, Option.map_some']
      rw [transition_to_processing_shipped ⟨id, OrderStatus.processing, none, none⟩ rfl]
      rfl
    unfold trackingBranch
    rw [hgc]
    simp only [OrderState.init, SessionMemory.get_order_state,
      SessionMemory.update_conversation_memory, SessionMemory.add_message,
      eq_self_iff_true, if_true]
    simp only [OrderState.init] at hl2
    refine ⟨?_, ?_, ?_, trivial⟩
    · rw [hl2]
      exact canonical_shipped_tomorrow id id (some ("TRK" ++ id ++ "789"))
    · rw [hl2]
      rfl
    · rw [hl2]
      rfl
  · have hgc : s.get_or_create_order_state id = (st0, s) := by
      unfold SessionMemory.get_or_create_order_state
      rw [hsome]
    have hl1 : ((s.transition_order_status id OrderStatus.processing
          none none).order_states.lookup id)
        = some { st0 with status := OrderStatus.processing } := by
      rw [transition_lookup, hsome, Option.map_some']
      rw [transition_to_unknown_processing st0 hst0]
      rfl
    have hl2 : (((s.transition_order_status id OrderStatus.processing
          none none).transition_order_status id OrderStatus.shipped
          (some ("TRK" ++ id ++ "789")) (some "tomorrow")).order_states.lookup id)
        = some { st0 with
            status := OrderStatus.shipped
            delivery_eta := some "tomorrow"
            tracking_number := some ("TRK" ++ id ++ "789") } := by
      rw [transition_lookup, hl1, Option.map_some']
      rw [transition_to_processing_shipped { st0 with status := OrderStatus.processing } rfl]
      rfl
    unfold trackingBranch
    rw [hgc]
    simp only [hst0, SessionMemory.get_order_state,
      SessionMemory.update_conversation_memory, SessionMemory.add_message,
      eq_self_iff_true, if_true]
    refine ⟨?_, ?_, ?_, trivial⟩
    · rw [hl2]
      exact canonical_shipped_tomorrow id st0.order_id (some ("TRK" ++ id ++ "789"))
    · rw [hl2]
      rfl
    · rw [hl2]
      rfl

/-- C8: a first tracking query for an order that the session has never seen (or
    still holds as UNKNOWN) makes `process_with_context` transition the order
    UNKNOWN to PROCESSING to SHIPPED, both steps allowed by the transition
    table, and return the canonical tracking template containing the order id
    with the no-resolution-prompt flag set, bypassing all resolution prompts. -/
theorem tracking_shortcircuit (collab : RouterCollab) (message : String)
    (s : SessionMemory) (id : String)
    (h1 : s.resolved = false)
    (h2 : collab.is_follow_up s message = false)
    (hd : detect_complete_request message
      = ⟨some id, some "tracking", some "tracking", true, true⟩)
    (hid : id ≠ "")
    (hst : s.order_states.lookup id = none
        ∨ ∃ st0, s.order_states.lookup id = some st0 ∧ st0.status = OrderStatus.unknown) :
    (process_with_context collab message s).1.response
      = "Order #" ++ id ++ " has been shipped and is on the way. You should receive it by tomorrow."
    ∧ pyIn id (process_with_context collab message s).1.response = true
    ∧ (process_with_context collab message s).1.issue_context.no_resolution_prompt = true
    ∧ (((process_with_context collab message s).2.order_states.lookup id).map
        OrderState.status = some OrderStatus.shipped)
    ∧ (((process_with_context collab message s).2.order_states.lookup id).map
        OrderState.delivery_eta = some (some "tomorrow"))
    ∧ can_transition_order OrderStatus.unknown OrderStatus.processing = true
    ∧ can_transition_order OrderStatus.processing OrderStatus.shipped = true := by
  have hpc := process_with_context_tracking collab message s id h1 h2 hd hid
  obtain ⟨ha, hb, hc, hdp⟩ := trackingBranch_unknown message s id hst
  rw [hpc]
  refine ⟨ha, ?_, hdp, hb, hc, by decide, by decide⟩
  rw [ha, pyIn_eq, hasInfix_correct]
  exact ⟨("Order #" : String).data,
    (" has been shipped and is on the way. You should receive it by tomorrow." : String).data,
    by simp [String.data_append]⟩

/-- Witness for C8: the query "track order 12345" on a fresh session. -/
theorem tracking_shortcircuit_witness :
    detect_complete_request "track order 12345"
      = ⟨some "12345", some "tracking", some "tracking", true, true⟩
    ∧ ((process_with_context
          ⟨fun _ _ => false, fun _ => "", fun _ s => (handle_post_resolution, s)⟩
          "track order 12345" freshSession).1.response
        = "Order #" ++ "12345" ++ " has been shipped and is on the way. You should receive it by tomorrow."
      ∧ pyIn "12345"
          (process_with_context
            ⟨fun _ _ => false, fun _ => "", fun _ s => (handle_post_resolution, s)⟩
            "track order 12345" freshSession).1.response = true
      ∧ (process_with_context
            ⟨fun _ _ => false, fun _ => "", fun _ s => (handle_post_resolution, s)⟩
            "track order 12345" freshSession).1.issue_context.no_resolution_prompt = true
      ∧ (((process_with_context
            ⟨fun _ _ => false, fun _ => "", fun _ s => (handle_post_resolution, s)⟩
            "track order 12345" freshSession).2.order_states.lookup "12345").map
          OrderState.status = some OrderStatus.shipped)
      ∧ (((process_with_context
            ⟨fun _ _ => false, fun _ => "", fun _ s => (handle_post_resolution, s)⟩
            "track order 12345" freshSession).2.order_states.lookup "12345").map
          OrderState.delivery_eta = some (some "tomorrow"))
      ∧ can_transition_order OrderStatus.unknown OrderStatus.processing = true
      ∧ can_transition_order OrderStatus.processing OrderStatus.shipped = true) :=
  ⟨by decide,
    tracking_shortcircuit
      ⟨fun _ _ => false, fun _ => "", fun _ s => (handle_post_resolution, s)⟩
      "track order 12345" freshSession "12345" rfl rfl (by decide) (by decide)
      (Or.inl rfl)⟩
